import Mathlib

/-!
Verification development for the orc-life-game simulation kernel
(src/orc_automata: config.py, environment.py, orc.py, simulation.py).

Modelling conventions:
* Python floats are modelled by exact rationals (ℚ); Python's `x ** 0.5`
  is modelled by `Rat.sqrt`.
* The shared `random.Random` stream is modelled by an explicit `RNG` state
  providing a stream of unit-interval draws (for `random()` / `uniform`)
  and a stream of naturals (for `_randbelow`, used by `shuffle` / `choice`).
  Constructing `random.Random(seed)` is modelled by an arbitrary initial
  `RNG` value: equal seeds yield equal initial streams.
* Grid cells store agent identifiers; the population association list is
  keyed by id and preserves insertion order (like a Python dict).
  In-place mutation of a shared `Orc` object is modelled by updating the
  population entry with that id.
-/

namespace OrcLife

/-- Explicit model of the shared `random.Random` stream. -/
structure RNG where
  floats : List ℚ
  nats : List Nat
  deriving DecidableEq, Repr

namespace RNG

/-- Model of `random.Random.random()`: pop the next unit-interval draw. -/
def random (r : RNG) : ℚ × RNG :=
  (r.floats.headD 0, ⟨r.floats.tail, r.nats⟩)

/-- Model of `random.Random.uniform(a, b) = a + (b-a) * random()`. -/
def uniform (r : RNG) (a b : ℚ) : ℚ × RNG :=
  (a + (b - a) * (r.random).1, (r.random).2)

/-- Model of `random.Random._randbelow(n)`: pop the next natural, reduced below `n`. -/
def randBelow (r : RNG) (n : Nat) : Nat × RNG :=
  ((r.nats.headD 0) % max 1 n, ⟨r.floats, r.nats.tail⟩)

/-- Model of `random.Random.choice(seq)` (`seq[_randbelow(len(seq))]`). -/
def choice {α : Type} (r : RNG) (l : List α) (dflt : α) : α × RNG :=
  let p := r.randBelow l.length
  (l.getD p.1 dflt, p.2)

/-- Swap the elements at positions `i` and `j` (helper for the Fisher-Yates shuffle). -/
def swapIdx {α : Type} (l : List α) (i j : Nat) : List α :=
  match l.get? i, l.get? j with
  | some a, some b => (l.set i b).set j a
  | _, _ => l

/-- Fisher-Yates loop of `random.Random.shuffle`: for `i` from `len-1` down to `1`,
draw `j = _randbelow(i+1)` and swap positions `i` and `j`. -/
def shuffleGo {α : Type} (l : List α) (i : Nat) (r : RNG) : List α × RNG :=
  match i with
  | 0 => (l, r)
  | Nat.succ k =>
    let p := r.randBelow (i + 1)
    shuffleGo (swapIdx l i p.1) k p.2

/-- Model of `random.Random.shuffle`. -/
def shuffle {α : Type} (r : RNG) (l : List α) : List α × RNG :=
  shuffleGo l (l.length - 1) r

end RNG

/-- Mirror of `config.SimulationSettings` (config.py).  Integer-valued fields
that the kernel compares against possibly-negative quantities are `Int`;
fields used only as sizes/ranges are `Nat`.  The per-kind modifier tuples are
lists (indexed modulo their length, as in `_apply_kind_modifiers`). -/
structure Settings where
  grid_width : Nat := 64
  grid_height : Nat := 40
  cell_size : Nat := 16
  tick_rate : Nat := 6
  classes : Nat := 3
  initial_orc_ratio : ℚ := 8/100
  max_age : Nat := 220
  base_energy : ℚ := 18
  energy_decay : ℚ := 32/100
  move_cost : ℚ := 55/100
  fight_reward : ℚ := 26/10
  fight_cost : ℚ := 8/10
  reproduction_threshold : ℚ := 6
  reproduction_chance : ℚ := 12/100
  reproduction_energy_share : ℚ := 35/100
  reproduction_overpop_pop_threshold : Int := 200
  reproduction_overpop_factor : ℚ := 1/2
  mutation_rate : ℚ := 15/100
  mutation_scale : ℚ := 25/100
  humidity_penalty : ℚ := 18/100
  humidity_bonus : ℚ := 15/100
  forage_gain : ℚ := 18/10
  forage_cost : ℚ := 25/100
  rest_threshold : ℚ := 55/10
  aggression_bias : ℚ := 45/100
  herd_radius : Int := 3
  herd_attraction : ℚ := 55/100
  pair_seek_multiplier : ℚ := 18/10
  escape_strength_threshold : ℚ := 95/100
  escape_threat_radius : Int := 2
  escape_threat_weight : ℚ := 6/10
  biome_bonus : ℚ := 16/100
  biome_penalty : ℚ := 12/100
  peace_floor_count : Int := 4
  skirmish_threshold : ℚ := 9/10
  skirmish_cost_factor : ℚ := 7/10
  group_support_bonus : ℚ := 15/100
  group_support_radius : Int := 2
  loner_grit_bonus : ℚ := 35/100
  loner_grit_threshold : Int := 3
  support_score_factor : ℚ := 12/100
  virus_spawn_base : ℚ := 2/10000
  virus_spawn_stressed : ℚ := 12/10000
  virus_crowd_threshold : Int := 6
  virus_crowd_pop_threshold : Int := 150
  virus_crowd_multiplier : ℚ := 5
  virus_spread_chance : ℚ := 4/100
  virus_duration : Int := 30
  virus_energy_penalty : ℚ := 6/10
  virus_fight_penalty : ℚ := 12/100
  max_population : Int := 400
  overpop_base : ℚ := 4/100
  overpop_scale : ℚ := 18/100
  habitat_seek_radius : Int := 4
  habitat_seek_bonus : ℚ := 4/10
  habitat_bad_threshold : ℚ := 48/100
  endangered_threshold : Int := 15
  endangered_repro_bonus : ℚ := 8/100
  endangered_repro_factor : ℚ := 65/100
  kind_strength_mods : List ℚ := [11/10, 9/10, 1]
  kind_agility_mods : List ℚ := [95/100, 11/10, 1]
  kind_resilience_mods : List ℚ := [1, 95/100, 11/10]
  seed : Option Int := none

/-- Mirror of `config.DEFAULT_SETTINGS`. -/
def DEFAULT_SETTINGS : Settings := {}

/-- Grid coordinates (Python ints). -/
abbrev Coord := Int × Int

/-- Mirror of the `Orc` dataclass (orc.py). -/
structure Orc where
  id : Nat
  position : Coord
  kind : Nat
  strength : ℚ
  agility : ℚ
  resilience : ℚ
  energy : ℚ
  age : Nat := 0
  infected : Bool := false
  infection_timer : Int := 0
  deriving DecidableEq, Repr

namespace Orc

/-- Mirror of `Orc.tick`: increment age, subtract the energy decay. -/
def tickO (o : Orc) (energy_decay : ℚ) : Orc :=
  { o with age := o.age + 1, energy := o.energy - energy_decay }

/-- Mirror of `Orc.adjust_energy`. -/
def adjustEnergyO (o : Orc) (delta : ℚ) : Orc :=
  { o with energy := o.energy + delta }

/-- Mirror of `Orc.fitness`: `strength*1.1 + agility*0.9 + resilience*0.8`. -/
def fitness (o : Orc) : ℚ :=
  o.strength * (11/10) + o.agility * (9/10) + o.resilience * (8/10)

/-- Mirror of `Orc.infect`: set infected with a timer of at least 1. -/
def infectO (o : Orc) (duration : Int) : Orc :=
  { o with infected := true, infection_timer := max duration 1 }

/-- Per-trait mutation helper of `Orc.clone_with_mutation`. -/
def mutateVal (r : RNG) (mutation_rate mutation_scale v : ℚ) : ℚ × RNG :=
  let p := r.random
  if p.1 < mutation_rate then
    let q := p.2.uniform (-mutation_scale) mutation_scale
    (max (1/10) (v + q.1), q.2)
  else (v, p.2)

/-- Mirror of `Orc.clone_with_mutation`. -/
def cloneWithMutation (o : Orc) (r : RNG) (mutation_rate mutation_scale : ℚ)
    (next_id : Nat) : Orc × RNG :=
  let ps := mutateVal r mutation_rate mutation_scale o.strength
  let pa := mutateVal ps.2 mutation_rate mutation_scale o.agility
  let pr := mutateVal pa.2 mutation_rate mutation_scale o.resilience
  (⟨next_id, o.position, o.kind, ps.1, pa.1, pr.1, o.energy * (6/10), 0, false, 0⟩, pr.2)

end Orc

/-- Mirror of the `Environment` class (environment.py).  The grid stores
agent identifiers (`None` = empty cell).  The rng handle lives in the
simulation state and is threaded through the generation functions. -/
structure Environment where
  width : Nat
  height : Nat
  grid : List (List (Option Nat))
  humidity : List (List ℚ)
  fertility : List (List ℚ)
  biome : List (List Nat)
  deriving DecidableEq, Repr

namespace Environment

/-- Mirror of `Environment.in_bounds`. -/
def inBounds (e : Environment) (x y : Int) : Prop :=
  0 ≤ x ∧ x < (e.width : Int) ∧ 0 ≤ y ∧ y < (e.height : Int)

instance (e : Environment) (x y : Int) : Decidable (e.inBounds x y) := by
  unfold inBounds; infer_instance

/-- Mirror of `Environment.get` (out-of-bounds indexing cannot occur in the
source; here it yields `none`). -/
def get (e : Environment) (x y : Int) : Option Nat :=
  if e.inBounds x y then ((e.grid.getD y.toNat []).getD x.toNat none) else none

/-- Write a grid cell (the assignment `self._grid[y][x] = v`). -/
def setCell (e : Environment) (x y : Int) (v : Option Nat) : Environment :=
  { e with grid := e.grid.set y.toNat ((e.grid.getD y.toNat []).set x.toNat v) }

/-- Mirror of `Environment.neighbors`: in-bounds 4-adjacent coordinates, in
source order `(+1,0), (-1,0), (0,+1), (0,-1)`. -/
def neighbors (e : Environment) (x y : Int) : List Coord :=
  ([((1 : Int), (0 : Int)), (-1, 0), (0, 1), (0, -1)].map
    (fun d => (x + d.1, y + d.2))).filter (fun c => decide (e.inBounds c.1 c.2))

/-- Mirror of `Environment.empty_neighbors`. -/
def emptyNeighbors (e : Environment) (x y : Int) : List Coord :=
  (e.neighbors x y).filter (fun c => (e.get c.1 c.2).isNone)

/-- Mirror of `Environment.occupied_neighbors`. -/
def occupiedNeighbors (e : Environment) (x y : Int) : List Coord :=
  (e.neighbors x y).filter (fun c => (e.get c.1 c.2).isSome)

/-- Mirror of `Environment.humidity_at`. -/
def humidityAt (e : Environment) (x y : Int) : ℚ :=
  (e.humidity.getD y.toNat []).getD x.toNat 0

/-- Mirror of `Environment.fertility_at`. -/
def fertilityAt (e : Environment) (x y : Int) : ℚ :=
  (e.fertility.getD y.toNat []).getD x.toNat 0

/-- Mirror of `Environment.biome_at`. -/
def biomeAt (e : Environment) (x y : Int) : Nat :=
  (e.biome.getD y.toNat []).getD x.toNat 0

end Environment

/-- Integer range `[a, b)` as a list, mirroring Python `range(a, b)`. -/
def intRange (a b : Int) : List Int :=
  (List.range (b - a).toNat).map (fun i => a + (i : Int))

namespace Environment

/-- The eight `(dy, dx)` neighbor offsets of `_smooth`, in source loop order
(`dy` outer, `dx` inner, skipping `(0, 0)`). -/
def smoothOffsets : List (Int × Int) :=
  [(-1, -1), (-1, 0), (-1, 1), (0, -1), (0, 1), (1, -1), (1, 0), (1, 1)]

/-- One smoothing pass (`Environment._smooth`): each cell becomes 50% itself
plus 50% the average of its in-bounds 8-neighbors; cells with no in-bounds
neighbor are left unchanged. -/
def smoothOnce (w h : Nat) (layer : List (List ℚ)) : List (List ℚ) :=
  (List.range h).map (fun (y : Nat) =>
    (List.range w).map (fun (x : Nat) =>
      let inb := fun (p : Int × Int) =>
        0 ≤ (x : Int) + p.2 ∧ (x : Int) + p.2 < (w : Int) ∧
        0 ≤ (y : Int) + p.1 ∧ (y : Int) + p.1 < (h : Int)
      let count := (smoothOffsets.filter (fun p => decide (inb p))).length
      let weightPerNeighbor : ℚ := (1/2) / (max 1 count : ℚ)
      let here := (layer.getD y []).getD x 0
      let acc := here * (1/2) +
        ((smoothOffsets.filter (fun p => decide (inb p))).map
          (fun p => (layer.getD ((y : Int) + p.1).toNat []).getD ((x : Int) + p.2).toNat 0
            * weightPerNeighbor)).sum
      if count = 0 then here else acc))

/-- Iterated smoothing (`for _ in range(max(0, smooth_passes))`). -/
def smoothIter (w h : Nat) : Nat → List (List ℚ) → List (List ℚ)
  | 0, layer => layer
  | Nat.succ k, layer => smoothIter w h k (smoothOnce w h layer)

/-- Draw `n` uniform values in `[a, b]`, threading the rng. -/
def uniformList (a b : ℚ) : Nat → RNG → List ℚ × RNG
  | 0, r => ([], r)
  | Nat.succ n, r =>
    let p := r.uniform a b
    let rest := uniformList a b n p.2
    (p.1 :: rest.1, rest.2)

/-- Generate the raw (pre-smoothing) rows of `_generate_layer`: per row,
`base = bias + vertical_pull * (y/denom - 0.5)` plus a per-cell uniform
noise draw in `[-variation, variation]`. -/
def genRows (w : Nat) (bias variation vertical_pull denom : ℚ) :
    List Nat → RNG → List (List ℚ) × RNG
  | [], r => ([], r)
  | y :: ys, r =>
    let base := bias + vertical_pull * ((y : ℚ) / denom - 1/2)
    let row := uniformList (-variation) variation w r
    let rest := genRows w bias variation vertical_pull denom ys row.2
    ((row.1.map (fun noise => base + noise)) :: rest.1, rest.2)

/-- Mirror of `Environment._generate_layer`: noisy rows, `smooth_passes`
smoothing passes, then clamping every value to `[0, 1]`. -/
def generateLayer (w h : Nat) (bias variation vertical_pull : ℚ)
    (smooth_passes : Nat) (r : RNG) : List (List ℚ) × RNG :=
  let denom : ℚ := (max 1 (h - 1) : Nat)
  let rows := genRows w bias variation vertical_pull denom (List.range h) r
  let smoothed := smoothIter w h smooth_passes rows.1
  (smoothed.map (fun row => row.map (fun v => max 0 (min 1 v))), rows.2)

/-- Tertile classification of `_generate_biomes`: partition all cell values
by the two cutoffs `sorted[third]` and `sorted[2*third]`. -/
def classifyTertiles (noise : List (List ℚ)) : List (List Nat) :=
  let flat := noise.flatten
  let sortedVals := flat.mergeSort (fun a b => decide (a ≤ b))
  let third := flat.length / 3
  let t1 := sortedVals.getD third 0
  let t2 := sortedVals.getD (2 * third) 0
  noise.map (fun row => row.map (fun v =>
    if v < t1 then 0 else if v < t2 then 1 else 2))

/-- Mirror of `Environment._generate_biomes`. -/
def generateBiomes (w h : Nat) (r : RNG) : List (List Nat) × RNG :=
  let noise := generateLayer w h (1/2) (35/100) 0 3 r
  (classifyTertiles noise.1, noise.2)

/-- The all-empty starting grid of `Environment.__init__`. -/
def emptyGrid (w h : Nat) : List (List (Option Nat)) :=
  List.replicate h (List.replicate w none)

/-- Mirror of `Environment.__init__`: empty grid, then humidity, fertility
and biome layers generated in that order from the shared rng. -/
def create (w h : Nat) (r : RNG) : Environment × RNG :=
  let hum := generateLayer w h (55/100) (22/100) (-(2/10)) 4 r
  let fer := generateLayer w h (1/2) (24/100) (16/100) 4 hum.2
  let bio := generateBiomes w h fer.2
  (⟨w, h, emptyGrid w h, hum.1, fer.1, bio.1⟩, bio.2)

end Environment

/-- Mirror of the `SimulationMetrics` dataclass (simulation.py). -/
structure SimulationMetrics where
  tick : Nat
  population : Nat
  average_strength : ℚ
  average_agility : ℚ
  average_resilience : ℚ
  deriving DecidableEq, Repr

/-- The population mapping `Dict[int, Orc]`: an association list keyed by
agent id, preserving insertion order like a Python dict. -/
abbrev Population := List (Nat × Orc)

/-- Dictionary lookup `population[id]` / `population.get(id)`. -/
def lookupOrc (p : Population) (id : Nat) : Option Orc :=
  match p with
  | [] => none
  | e :: rest => if e.1 = id then some e.2 else lookupOrc rest id

/-- In-place mutation of the shared `Orc` object with the given id. -/
def updateOrc (p : Population) (id : Nat) (f : Orc → Orc) : Population :=
  p.map (fun e => if e.1 = id then (e.1, f e.2) else e)

/-- Dictionary removal `population.pop(id, None)`. -/
def eraseOrc (p : Population) (id : Nat) : Population :=
  p.filter (fun e => decide (e.1 ≠ id))

/-- The engine state of the `Simulation` class (settings, shared rng,
environment, population, tick counter, id allocator). -/
structure Sim where
  settings : Settings
  rng : RNG
  env : Environment
  population : Population
  tick : Nat
  nextId : Nat

namespace Sim

/-- Mirror of `Simulation._kind_for_biome`: `biome % max(1, classes)`. -/
def kindForBiome (s : Sim) (biome : Nat) : Nat :=
  biome % max 1 s.settings.classes

/-- Mirror of `Simulation._apply_kind_modifiers`: scale the traits by the
per-kind modifier at index `kind % max(1, len(mods))`. -/
def applyKindModifiers (s : Sim) (o : Orc) : Orc :=
  let idx := o.kind % max 1 s.settings.kind_strength_mods.length
  { o with
    strength := o.strength * s.settings.kind_strength_mods.getD idx 1,
    agility := o.agility * s.settings.kind_agility_mods.getD idx 1,
    resilience := o.resilience * s.settings.kind_resilience_mods.getD idx 1 }

/-- Apply an in-place mutation to the population entry with the given id. -/
def updateOrcF (s : Sim) (id : Nat) (f : Orc → Orc) : Sim :=
  { s with population := updateOrc s.population id f }

/-- In-place `orc.adjust_energy(delta)` on the agent with the given id. -/
def adjustEnergy (s : Sim) (id : Nat) (delta : ℚ) : Sim :=
  s.updateOrcF id (fun o => o.adjustEnergyO delta)

/-- Mirror of `Environment.place` at the engine level: valid placements set
the cell and the orc's recorded position; invalid ones raise in the source
(they are unreachable from the engine; modelled as a no-op). -/
def placeOrc (s : Sim) (orc : Orc) (x y : Int) : Sim :=
  if s.env.inBounds x y ∧ s.env.get x y = none then
    { s with env := s.env.setCell x y (some orc.id),
             population := updateOrc s.population orc.id
               (fun o => { o with position := (x, y) }) }
  else s

/-- Registering a fresh agent: `population[orc.id] = orc` followed by
`environment.place(orc, ...)` (the shared pattern of `_spawn_orc` and
`_maybe_reproduce`). -/
def registerPlace (s : Sim) (orc : Orc) (x y : Int) : Sim :=
  ({ s with population := s.population ++ [(orc.id, orc)] }).placeOrc orc x y

/-- Mirror of `Environment.remove` + `population.pop` (the body of
`Simulation._remove_orc`): clear the cell only if it holds this very agent,
then drop the population entry. -/
def removeOrc (s : Sim) (orc : Orc) : Sim :=
  let env' := if s.env.get orc.position.1 orc.position.2 = some orc.id then
      s.env.setCell orc.position.1 orc.position.2 none
    else s.env
  { s with env := env', population := eraseOrc s.population orc.id }

/-- Mirror of `Simulation._spawn_orc`. -/
def spawnOrc (s : Sim) (pos : Coord) : Sim :=
  let biome := s.env.biomeAt pos.1 pos.2
  let kind := s.kindForBiome biome
  let ps := s.rng.uniform (1/2) (3/2)
  let pa := ps.2.uniform (1/2) (3/2)
  let pr := pa.2.uniform (1/2) (3/2)
  let orc : Orc :=
    ⟨s.nextId, pos, kind, ps.1, pa.1, pr.1, s.settings.base_energy, 0, false, 0⟩
  let orc := s.applyKindModifiers orc
  ({ s with rng := pr.2, nextId := s.nextId + 1 }).registerPlace orc pos.1 pos.2

/-- Mirror of `Simulation._seed_initial_population`. -/
def seedInitialPopulation (s : Sim) : Sim :=
  let capacity := s.settings.grid_width * s.settings.grid_height
  let target := (Int.floor ((capacity : ℚ) * s.settings.initial_orc_ratio)).toNat
  let coords : List Coord :=
    ((List.range s.settings.grid_width).product (List.range s.settings.grid_height)).map
      (fun c => ((c.1 : Int), (c.2 : Int)))
  let sh := s.rng.shuffle coords
  ((sh.1.take target).foldl (fun st c => st.spawnOrc c) { s with rng := sh.2 })

/-- Mirror of `Simulation.__init__` with an explicit initial rng state
(`random.Random(settings.seed)` for the given seed). -/
def mkSim (settings : Settings) (r : RNG) : Sim :=
  let p := Environment.create settings.grid_width settings.grid_height r
  seedInitialPopulation
    { settings := settings, rng := p.2, env := p.1, population := [],
      tick := 0, nextId := 1 }

/-- Mirror of `Simulation.reset`: regenerate the environment from the
current rng stream, clear the population, reset counters, reseed. -/
def reset (s : Sim) : Sim :=
  let p := Environment.create s.settings.grid_width s.settings.grid_height s.rng
  seedInitialPopulation
    { s with env := p.1, rng := p.2, population := [], tick := 0, nextId := 1 }

/-- Mirror of `Simulation._biome_effect`: home biome grants a bonus, the
biome one step before in the hard-coded 3-cycle is neutral, all others
impose a penalty. -/
def biomeEffect (s : Sim) (kind biome : Nat) : ℚ × ℚ :=
  if biome = kind then (s.settings.biome_bonus, 0)
  else if (biome + 1) % 3 = kind then (0, 0)
  else (0, s.settings.biome_penalty)

/-- Mirror of `Simulation._biome_move_bonus`. -/
def biomeMoveBonus (s : Sim) (kind biome : Nat) : ℚ :=
  (s.biomeEffect kind biome).1 * 1 - (s.biomeEffect kind biome).2 * (7/10)

/-- Mirror of `Simulation._kind_count`. -/
def kindCount (s : Sim) (kind : Nat) : Nat :=
  (s.population.filter (fun e => e.2.kind == kind)).length

/-- Square scan coordinates of the radius-based loops (`_social_counts`,
`_herd_bonus`, `_threat_penalty`, `_seek_habitat_direction`): `y` from
`max(0, y0-radius)` to `min(height, y0+radius+1)` (outer), `x` likewise
(inner). -/
def squareCoords (s : Sim) (x0 y0 radius : Int) : List Coord :=
  (intRange (max 0 (y0 - radius)) (min (s.env.height : Int) (y0 + radius + 1))).flatMap
    (fun y => (intRange (max 0 (x0 - radius)) (min (s.env.width : Int) (x0 + radius + 1))).map
      (fun x => (x, y)))

/-- Mirror of `Simulation._social_counts`: same-kind and other-kind agents
in the square of radius `group_support_radius`, excluding the agent's own
cell. -/
def socialCounts (s : Sim) (orc : Orc) : Nat × Nat :=
  let others := (s.squareCoords orc.position.1 orc.position.2
      s.settings.group_support_radius).filterMap (fun c =>
    if c.1 = orc.position.1 ∧ c.2 = orc.position.2 then none
    else match s.env.get c.1 c.2 with
      | none => none
      | some id => lookupOrc s.population id)
  (others.countP (fun o => o.kind == orc.kind),
   others.countP (fun o => o.kind != orc.kind))

/-- Mirror of `Simulation._local_support_score`. -/
def localSupportScore (s : Sim) (orc : Orc) : ℚ :=
  (((s.socialCounts orc).1 : ℚ) - ((s.socialCounts orc).2 : ℚ) * (6/10)) *
    s.settings.support_score_factor

/-- Mirror of `Simulation._effective_fitness`: fitness, reduced when
infected. -/
def effectiveFitness (s : Sim) (orc : Orc) : ℚ :=
  if orc.infected then orc.fitness * max (2/10) (1 - s.settings.virus_fight_penalty)
  else orc.fitness

/-- Mirror of `Simulation._herd_bonus`: same-kind count in the
`herd_radius` square around the candidate cell, scaled. -/
def herdBonus (s : Sim) (orc : Orc) (coord : Coord) : ℚ :=
  let radius := s.settings.herd_radius
  if radius ≤ 0 then 0
  else
    let total := ((s.squareCoords coord.1 coord.2 radius).filterMap (fun c =>
      match s.env.get c.1 c.2 with
      | none => none
      | some id => lookupOrc s.population id)).countP (fun o => o.kind == orc.kind)
    (total : ℚ) * (s.settings.herd_attraction / ((max 1 (radius * radius) : Int) : ℚ))

/-- Mirror of `Simulation._threat_penalty`: other-kind count in the
`escape_threat_radius` square around the candidate cell (excluding the
cell itself), weighted. -/
def threatPenalty (s : Sim) (orc : Orc) (coord : Coord) : ℚ :=
  let radius := s.settings.escape_threat_radius
  if radius ≤ 0 then 0
  else
    let enemies := ((s.squareCoords coord.1 coord.2 radius).filterMap (fun c =>
      if c.1 = coord.1 ∧ c.2 = coord.2 then none
      else match s.env.get c.1 c.2 with
        | none => none
        | some id => lookupOrc s.population id)).countP (fun o => o.kind != orc.kind)
    (enemies : ℚ) * s.settings.escape_threat_weight

/-- Mirror of `Simulation._virus_spawn_chance`. -/
def virusSpawnChance (s : Sim) (orc : Orc) : ℚ :=
  let bp := s.biomeEffect orc.kind (s.env.biomeAt orc.position.1 orc.position.2)
  let base := if bp.2 > 0 then s.settings.virus_spawn_stressed else s.settings.virus_spawn_base
  if (s.population.length : Int) ≥ s.settings.virus_crowd_pop_threshold then
    if ((s.socialCounts orc).1 : Int) ≥ s.settings.virus_crowd_threshold then
      base * s.settings.virus_crowd_multiplier
    else base
  else base

/-- Mirror of `Simulation._env_score`. -/
def envScore (s : Sim) (kind : Nat) (coord : Coord) : ℚ :=
  s.env.humidityAt coord.1 coord.2 * (35/100) +
    s.env.fertilityAt coord.1 coord.2 * (1/2) +
    s.biomeMoveBonus kind (s.env.biomeAt coord.1 coord.2)

/-- Mirror of `Simulation._seek_habitat_direction`: scan the
`habitat_seek_radius` square for a cell beating the running best score
by more than 0.05, returning the displacement to the last such best. -/
def seekHabitatDirection (s : Sim) (orc : Orc) (currentScore : ℚ) :
    Option (Int × Int) :=
  let radius := s.settings.habitat_seek_radius
  if radius ≤ 0 then none
  else
    let best := (s.squareCoords orc.position.1 orc.position.2 radius).foldl
      (fun (acc : ℚ × Option Coord) c =>
        let score := s.envScore orc.kind c
        if score > acc.1 + 1/20 then (score, some c) else acc)
      (currentScore, none)
    match best.2 with
    | none => none
    | some bc => some (bc.1 - orc.position.1, bc.2 - orc.position.2)

/-- Mirror of `Simulation._apply_environment_pressure`: humidity deficit
costs energy, humidity surplus grants energy, then the biome bonus/penalty
is applied. -/
def applyEnvironmentPressure (s : Sim) (id : Nat) : Sim :=
  match lookupOrc s.population id with
  | none => s
  | some orc =>
    let humidity := s.env.humidityAt orc.position.1 orc.position.2
    let s1 :=
      if humidity < 45/100 then
        s.adjustEnergy id (-((45/100 - humidity) * s.settings.humidity_penalty))
      else if humidity > 65/100 then
        s.adjustEnergy id ((humidity - 65/100) * s.settings.humidity_bonus)
      else s
    let bp := s.biomeEffect orc.kind (s.env.biomeAt orc.position.1 orc.position.2)
    let s2 := if bp.1 ≠ 0 then s1.adjustEnergy id bp.1 else s1
    if bp.2 ≠ 0 then s2.adjustEnergy id (-bp.2) else s2

/-- Mirror of `Simulation._apply_social_context`. -/
def applySocialContext (s : Sim) (id : Nat) : Sim :=
  match lookupOrc s.population id with
  | none => s
  | some orc =>
    let fc := s.socialCounts orc
    let s1 :=
      if 2 ≤ fc.1 then
        s.adjustEnergy id ((min 3 fc.1 : Nat) * s.settings.group_support_bonus)
      else s
    if (fc.1 : Int) + s.settings.loner_grit_threshold ≤ (fc.2 : Int) then
      s1.adjustEnergy id s.settings.loner_grit_bonus
    else s1

/-- Mirror of `Simulation._apply_disease`: possible spawn, then timer
decrement, energy penalty, per-neighbor spread attempts, and clearing
when the timer runs out. -/
def applyDisease (s : Sim) (id : Nat) : Sim :=
  match lookupOrc s.population id with
  | none => s
  | some orc =>
    let s1 :=
      if orc.infected then s
      else
        let p := s.rng.random
        if p.1 < s.virusSpawnChance orc then
          ({ s with rng := p.2 }).updateOrcF id
            (fun o => o.infectO s.settings.virus_duration)
        else { s with rng := p.2 }
    match lookupOrc s1.population id with
    | none => s1
    | some orc1 =>
      if ¬ orc1.infected then s1
      else
        let s2 := s1.updateOrcF id
          (fun o => { o with infection_timer := o.infection_timer - 1 })
        let s3 := s2.adjustEnergy id (-(s.settings.virus_energy_penalty))
        let s4 := (s3.env.occupiedNeighbors orc1.position.1 orc1.position.2).foldl
          (fun st c =>
            match st.env.get c.1 c.2 with
            | none => st
            | some tid =>
              match lookupOrc st.population tid with
              | none => st
              | some target =>
                if target.infected then st
                else
                  let q := st.rng.random
                  if q.1 < s.settings.virus_spread_chance then
                    ({ st with rng := q.2 }).updateOrcF tid
                      (fun o => o.infectO s.settings.virus_duration)
                  else { st with rng := q.2 }) s3
        match lookupOrc s4.population id with
        | none => s4
        | some orc4 =>
          if orc4.infection_timer ≤ 0 then
            s4.updateOrcF id (fun o => { o with infected := false, infection_timer := 0 })
          else s4

/-- Mirror of `Simulation._overpop_kill_check`: above the population cap
each agent is culled with probability
`min(0.75, overpop_base + overload * overpop_scale)`. -/
def overpopKillCheck (s : Sim) (orc : Orc) : Bool × Sim :=
  let limit := s.settings.max_population
  if limit ≤ 0 then (false, s)
  else if (s.population.length : Int) ≤ limit then (false, s)
  else
    let overload : ℚ := ((s.population.length : ℚ) - (limit : ℚ)) / (limit : ℚ)
    let chance := min (3/4) (s.settings.overpop_base + overload * s.settings.overpop_scale)
    let u := s.rng.random
    if u.1 < chance then (true, ({ s with rng := u.2 }).removeOrc orc)
    else (false, { s with rng := u.2 })

/-- Mirror of `Simulation._is_dead`: energy at or below zero, or age past
the maximum. -/
def isDead (s : Sim) (orc : Orc) : Bool :=
  decide (orc.energy ≤ 0) || decide (s.settings.max_age < orc.age)

/-- Endangered-kind test of `_maybe_reproduce`:
`pop_kind <= endangered_threshold`. -/
def reproduceEndangered (s : Sim) (orc : Orc) : Prop :=
  (s.kindCount orc.kind : Int) ≤ s.settings.endangered_threshold

instance (s : Sim) (orc : Orc) : Decidable (s.reproduceEndangered orc) := by
  unfold reproduceEndangered; infer_instance

/-- Effective reproduction energy threshold of `_maybe_reproduce`. -/
def reproThreshold (s : Sim) (orc : Orc) : ℚ :=
  if s.reproduceEndangered orc then
    s.settings.reproduction_threshold * s.settings.endangered_repro_factor
  else s.settings.reproduction_threshold

/-- Effective reproduction chance of `_maybe_reproduce` (endangered bonus,
then the high-population reduction). -/
def reproChance (s : Sim) (orc : Orc) : ℚ :=
  let chance0 :=
    if s.reproduceEndangered orc then
      min 1 (s.settings.reproduction_chance + s.settings.endangered_repro_bonus)
    else s.settings.reproduction_chance
  if s.settings.reproduction_overpop_pop_threshold ≤ (s.population.length : Int) then
    chance0 * s.settings.reproduction_overpop_factor
  else chance0

/-- The same-kind-adjacent-partner test of `_maybe_reproduce`. -/
def allyAdjacentTo (s : Sim) (orc : Orc) : Bool :=
  (s.env.occupiedNeighbors orc.position.1 orc.position.2).any
    (fun c =>
      match s.env.get c.1 c.2 with
      | some nid =>
        match lookupOrc s.population nid with
        | some n => n.kind == orc.kind
        | none => false
      | none => false)

/-- The success tail of `_maybe_reproduce` (after all four guards): draw the
birth site, build the clamped-energy child, register and place it, and
charge the parent. -/
def reproduceSuccess (s1 : Sim) (orc : Orc) (empties : List Coord) : Bool × Sim :=
  let dc := s1.rng.choice empties ((0 : Int), (0 : Int))
  let dest := dc.1
  let energyForChild :=
    max 2 (min s1.settings.base_energy (orc.energy * s1.settings.reproduction_energy_share))
  let cw := orc.cloneWithMutation dc.2 s1.settings.mutation_rate
    s1.settings.mutation_scale s1.nextId
  let s2 : Sim := { s1 with rng := cw.2, nextId := s1.nextId + 1 }
  let child : Orc := { cw.1 with energy := energyForChild }
  let s3 := s2.registerPlace child dest.1 dest.2
  (true, s3.adjustEnergy orc.id (-energyForChild))

/-- Mirror of `Simulation._maybe_reproduce`. -/
def maybeReproduce (s : Sim) (orc : Orc) : Bool × Sim :=
  if orc.energy < s.reproThreshold orc then (false, s)
  else
    let u := s.rng.random
    let s1 : Sim := { s with rng := u.2 }
    if u.1 > s.reproChance orc then (false, s1)
    else if ¬ s1.allyAdjacentTo orc then (false, s1)
    else
      let empties := s1.env.emptyNeighbors orc.position.1 orc.position.2
      if empties = [] then (false, s1)
      else s1.reproduceSuccess orc empties

/-- Mirror of `Simulation._forage`: gain scaled by local fertility and a
uniform factor, minus the forage cost. -/
def forage (s : Sim) (id : Nat) (fertility : ℚ) : Sim :=
  let gain0 := s.settings.forage_gain * (4/10 + fertility)
  let u := s.rng.uniform (6/10) (12/10)
  ({ s with rng := u.2 }).adjustEnergy id (gain0 * u.1 - s.settings.forage_cost)

/-- Mirror of `Simulation._pick_target`: score adjacent other-kind agents,
stable-sort descending, keep the best only above the `-0.3` margin. -/
def pickTarget (s : Sim) (orc : Orc) (occupied : List Coord) : Option Coord :=
  let candidates := occupied.filterMap (fun coord =>
    match s.env.get coord.1 coord.2 with
    | none => none
    | some tid =>
      match lookupOrc s.population tid with
      | none => none
      | some target =>
        if target.kind = orc.kind then none
        else some (orc.fitness - target.fitness + (orc.energy - target.energy) * (1/10), coord))
  match candidates.mergeSort (fun a b => decide (b.1 ≤ a.1)) with
  | [] => none
  | best :: _ => if best.1 > -(3/10) then some best.2 else none

/-- Mirror of `Simulation._should_attack`. -/
def shouldAttack (s : Sim) (challenger defender : Orc) : Bool × RNG :=
  let advantage := challenger.fitness - defender.fitness
  if challenger.kind = defender.kind then (false, s.rng)
  else if advantage < -(6/10) then (false, s.rng)
  else if (s.kindCount defender.kind : Int) ≤ s.settings.endangered_threshold then
    (false, s.rng)
  else if (s.kindCount challenger.kind : Int) ≤ s.settings.peace_floor_count then
    (false, s.rng)
  else
    let aggression0 := s.settings.aggression_bias + advantage * (1/10)
    let aggression :=
      if 2 < challenger.energy - defender.energy then aggression0 + 1/10 else aggression0
    let u := s.rng.random
    (decide (u.1 < aggression), u.2)

/-- Combat scores of `Simulation._resolve_fight`: effective fitness plus an
independent jitter in `[-0.4, 0.4]` plus local support, challenger first. -/
def fightScores (s : Sim) (ch df : Orc) : (ℚ × ℚ) × RNG :=
  let supC := s.localSupportScore ch
  let supD := s.localSupportScore df
  let u1 := s.rng.uniform (-(4/10)) (4/10)
  let u2 := u1.2.uniform (-(4/10)) (4/10)
  ((s.effectiveFitness ch + u1.1 + supC, s.effectiveFitness df + u2.1 + supD), u2.2)

/-- The mutual engagement cost opening `_resolve_fight`: both sides lose
half the fight cost. -/
def fightEngage (s : Sim) (chId dfId : Nat) : Sim :=
  (s.adjustEnergy chId (-(s.settings.fight_cost * (1/2)))).adjustEnergy dfId
    (-(s.settings.fight_cost * (1/2)))

/-- Mirror of `Simulation._resolve_fight`. -/
def resolveFight (s : Sim) (challenger defender : Orc) : Sim :=
  if lookupOrc s.population defender.id = none ∨
      lookupOrc s.population challenger.id = none then s
  else
    let s1 := s.fightEngage challenger.id defender.id
    match lookupOrc s1.population challenger.id, lookupOrc s1.population defender.id with
    | some ch, some df =>
      if ch.energy ≤ 0 then s1.removeOrc ch
      else if df.energy ≤ 0 then s1.removeOrc df
      else
        let sc := s1.fightScores ch df
        let s2 : Sim := { s1 with rng := sc.2 }
        let diff := |sc.1.1 - sc.1.2|
        let winnerId := if sc.1.2 ≤ sc.1.1 then ch.id else df.id
        let loser := if sc.1.2 ≤ sc.1.1 then df else ch
        if diff < s.settings.skirmish_threshold then
          let s3 := (s2.adjustEnergy ch.id
            (-(s.settings.fight_cost * s.settings.skirmish_cost_factor))).adjustEnergy df.id
            (-(s.settings.fight_cost * s.settings.skirmish_cost_factor))
          let s4 := s3.adjustEnergy winnerId (s.settings.fight_reward * (4/10))
          let s5 :=
            match lookupOrc s4.population ch.id with
            | some ch2 => if ch2.energy ≤ 0 then s4.removeOrc ch2 else s4
            | none => s4
          match lookupOrc s5.population df.id with
          | some df2 => if df2.energy ≤ 0 then s5.removeOrc df2 else s5
          | none => s5
        else
          let s3 := s2.removeOrc loser
          let s4 := s3.adjustEnergy winnerId
            (s.settings.fight_reward - s.settings.fight_cost * (1/2))
          let s5 := s4.updateOrcF winnerId (fun o =>
            { o with strength := o.strength + 5/100, resilience := o.resilience + 3/100 })
          match lookupOrc s5.population winnerId with
          | some w => if w.energy ≤ 0 then s5.removeOrc w else s5
          | none => s5
    | _, _ => s

/-- Desirability of one empty candidate cell in
`Simulation._choose_move_target`, including the jitter draw. -/
def moveDesirability (s : Sim) (orc : Orc) (currentScore : ℚ)
    (targetVec : Option (Int × Int)) (friendsAdjacent lowPop lowStrength : Bool)
    (coord : Coord) (r : RNG) : ℚ × RNG :=
  let base := s.envScore orc.kind coord
  let herd0 := s.herdBonus orc coord
  let herd := if friendsAdjacent then herd0 else herd0 * s.settings.pair_seek_multiplier
  let threat := if lowPop && lowStrength then s.threatPenalty orc coord else 0
  let d0 := base + herd - threat
  let d1 :=
    match targetVec with
    | none => d0
    | some v =>
      let dx := coord.1 - orc.position.1
      let dy := coord.2 - orc.position.2
      let dot := dx * v.1 + dy * v.2
      let norm := max (1/1000)
        (Rat.sqrt ((dx * dx + dy * dy : Int) : ℚ) * Rat.sqrt ((v.1 * v.1 + v.2 * v.2 : Int) : ℚ))
      d0 + s.settings.habitat_seek_bonus * max 0 ((dot : ℚ) / norm)
  let d2 :=
    if currentScore < s.settings.habitat_bad_threshold then d1 + (base - currentScore) * (8/10)
    else d1
  let u := r.uniform (-(1/10)) (1/10)
  (d2 + u.1, u.2)

/-- Mirror of `Simulation._choose_move_target`: weigh every empty neighbor,
stable-sort descending, choose uniformly among the top 3. -/
def chooseMoveTarget (s : Sim) (orc : Orc) (empties : List Coord) : Coord × RNG :=
  let currentScore := s.envScore orc.kind orc.position
  let targetVec := s.seekHabitatDirection orc currentScore
  let friendsAdjacent := (s.env.occupiedNeighbors orc.position.1 orc.position.2).any
    (fun c =>
      match s.env.get c.1 c.2 with
      | some nid =>
        match lookupOrc s.population nid with
        | some n => n.kind == orc.kind
        | none => false
      | none => false)
  let lowPop := decide ((s.kindCount orc.kind : Int) ≤ s.settings.endangered_threshold)
  let lowStrength := decide (orc.strength ≤ s.settings.escape_strength_threshold)
  let wr := empties.foldl (fun (acc : List (ℚ × Coord) × RNG) coord =>
    let p := s.moveDesirability orc currentScore targetVec friendsAdjacent
      lowPop lowStrength coord acc.2
    (acc.1 ++ [(p.1, coord)], p.2)) ([], s.rng)
  let sorted := wr.1.mergeSort (fun a b => decide (b.1 ≤ a.1))
  let top := sorted.take (min 3 sorted.length)
  let c := wr.2.choice top (0, ((0 : Int), (0 : Int)))
  (c.1.2, c.2)

/-- Mirror of `Environment.move`: a silent no-op when the destination is
out of bounds or occupied, otherwise clear the source cell, fill the
destination, and update the recorded position. -/
def moveOrc (s : Sim) (orc : Orc) (dest : Coord) : Sim :=
  if s.env.inBounds dest.1 dest.2 then
    if s.env.get dest.1 dest.2 = none then
      { s with
        env := (s.env.setCell orc.position.1 orc.position.2 none).setCell
          dest.1 dest.2 (some orc.id),
        population := updateOrc s.population orc.id (fun o => { o with position := dest }) }
    else s
  else s

/-- Move-or-forage tail of `Simulation._take_action` (after the attack
opportunity was declined or absent). -/
def takeActionMovePhase (s : Sim) (orc : Orc) (empties : List Coord)
    (fertilityHere : ℚ) : Sim :=
  if empties = [] then
    let u := s.rng.random
    let s1 : Sim := { s with rng := u.2 }
    if u.1 < 4/10 then s1.forage orc.id fertilityHere else s1
  else
    let cm := s.chooseMoveTarget orc empties
    let dest := cm.1
    let s1 : Sim := { s with rng := cm.2 }
    let s2 := s1.moveOrc orc dest
    let s3 := s2.adjustEnergy orc.id (-(s.settings.move_cost))
    match lookupOrc s3.population orc.id with
    | none => s3
    | some o3 =>
      if o3.energy < s.settings.rest_threshold then
        let u := s3.rng.random
        let s4 : Sim := { s3 with rng := u.2 }
        if u.1 < 35/100 then s4.forage orc.id (s4.env.fertilityAt dest.1 dest.2) else s4
      else s3

/-- Target-evaluation phase of `Simulation._take_action`: a declined or
absent attack falls through to the move phase. -/
def takeActionTargetPhase (s : Sim) (orc : Orc) (occupied empties : List Coord)
    (fertilityHere : ℚ) : Sim :=
  match s.pickTarget orc occupied with
  | some tc =>
    match s.env.get tc.1 tc.2 with
    | some tid =>
      match lookupOrc s.population tid with
      | some target =>
        let sa := s.shouldAttack orc target
        if sa.1 then ({ s with rng := sa.2 } : Sim).resolveFight orc target
        else ({ s with rng := sa.2 } : Sim).takeActionMovePhase orc empties fertilityHere
      | none => s.takeActionMovePhase orc empties fertilityHere
    | none => s.takeActionMovePhase orc empties fertilityHere
  | none => s.takeActionMovePhase orc empties fertilityHere

/-- Mirror of `Simulation._take_action`. -/
def takeAction (s : Sim) (orc : Orc) : Sim :=
  let occupied := s.env.occupiedNeighbors orc.position.1 orc.position.2
  let empties := s.env.emptyNeighbors orc.position.1 orc.position.2
  let fertilityHere := s.env.fertilityAt orc.position.1 orc.position.2
  if orc.energy < s.settings.rest_threshold then
    let u := s.rng.random
    let s1 : Sim := { s with rng := u.2 }
    if u.1 < 55/100 then s1.forage orc.id fertilityHere
    else s1.takeActionTargetPhase orc occupied empties fertilityHere
  else s.takeActionTargetPhase orc occupied empties fertilityHere

/-- The first two steps of an agent's turn in `Simulation.step`:
`orc.tick(energy_decay)` followed by `_apply_environment_pressure(orc)`. -/
def agingThenPressure (s : Sim) (id : Nat) : Sim :=
  (s.updateOrcF id (fun o => o.tickO s.settings.energy_decay)).applyEnvironmentPressure id

/-- One agent's turn inside `Simulation.step`: skip if the agent has been
removed, then aging/decay, pressure, social context, disease,
overpopulation check, death check, reproduction, action. -/
def processTurn (s : Sim) (id : Nat) : Sim :=
  match lookupOrc s.population id with
  | none => s
  | some _ =>
    let s2 := s.agingThenPressure id
    let s3 := s2.applySocialContext id
    let s4 := s3.applyDisease id
    match lookupOrc s4.population id with
    | none => s4
    | some o4 =>
      let kc := s4.overpopKillCheck o4
      if kc.1 then kc.2
      else
        let s5 := kc.2
        match lookupOrc s5.population id with
        | none => s5
        | some o5 =>
          if s5.isDead o5 then s5.removeOrc o5
          else
            let mr := s5.maybeReproduce o5
            if mr.1 then mr.2
            else mr.2.takeAction o5

/-- Mirror of `Simulation.step`: shuffle a snapshot of the population,
run every agent's turn, then increment the tick counter. -/
def step (s : Sim) : Sim :=
  let sh := s.rng.shuffle (s.population.map (fun e => e.2))
  let s1 : Sim := { s with rng := sh.2 }
  let s2 := sh.1.foldl (fun st orc => st.processTurn orc.id) s1
  { s2 with tick := s2.tick + 1 }

/-- Iterated `step`. -/
def stepN (s : Sim) : Nat → Sim
  | 0 => s
  | Nat.succ n => (s.stepN n).step

/-- Mirror of `Simulation.metrics`: population count and trait averages,
with an explicit empty-population case. -/
def metrics (s : Sim) : SimulationMetrics :=
  let pop := s.population.map (fun e => e.2)
  let count := pop.length
  if count = 0 then ⟨s.tick, 0, 0, 0, 0⟩
  else
    ⟨s.tick, count,
      (pop.map (fun o => o.strength)).sum / (count : ℚ),
      (pop.map (fun o => o.agility)).sum / (count : ℚ),
      (pop.map (fun o => o.resilience)).sum / (count : ℚ)⟩

/-- The per-tick observations of a run: population snapshot and metrics
after each of the first `n` ticks. -/
def observations (s : Sim) (n : Nat) : List (Population × SimulationMetrics) :=
  (List.range n).map (fun k => ((s.stepN (k + 1)).population, (s.stepN (k + 1)).metrics))

end Sim

/-- Engine states reachable from construction by `step` and `reset` calls
(the points "between ticks" at which external callers observe state). -/
inductive Reachable (settings : Settings) (r0 : RNG) : Sim → Prop
  | init : Reachable settings r0 (Sim.mkSim settings r0)
  | step {s : Sim} : Reachable settings r0 s → Reachable settings r0 s.step
  | reset {s : Sim} : Reachable settings r0 s → Reachable settings r0 s.reset

/-- The grid/population bidirectional-consistency property: every occupied
cell's id belongs to a live agent recorded at exactly that cell, no two
cells hold the same id, and every live agent's recorded position is a cell
holding its id. -/
def GridPopConsistent (s : Sim) : Prop :=
  (∀ x y id, s.env.get x y = some id →
    ∃ o, lookupOrc s.population id = some o ∧ o.position = (x, y)) ∧
  (∀ x1 y1 x2 y2 id, s.env.get x1 y1 = some id → s.env.get x2 y2 = some id →
    x1 = x2 ∧ y1 = y2) ∧
  (∀ e ∈ s.population, s.env.get e.2.position.1 e.2.position.2 = some e.1)

/-- Strengthened internal invariant: grid shape facts, well-formed
population keys, id-allocator freshness, and both consistency directions. -/
def Sim.WF (s : Sim) : Prop :=
  s.env.grid.length = s.env.height ∧
  (∀ row ∈ s.env.grid, row.length = s.env.width) ∧
  (s.population.map (fun e => e.1)).Nodup ∧
  (∀ e ∈ s.population, e.2.id = e.1 ∧ e.1 < s.nextId) ∧
  (∀ x y id, s.env.get x y = some id →
    ∃ o, lookupOrc s.population id = some o ∧ o.position = (x, y)) ∧
  (∀ e ∈ s.population, s.env.get e.2.position.1 e.2.position.2 = some e.1)

/-- Specification form of the biome effect, following the spec's words:
the neutral case is `(biome + 1) mod classes == kind`. -/
def Sim.biomeEffectSpec (s : Sim) (kind biome : Nat) : ℚ × ℚ :=
  if biome = kind then (s.settings.biome_bonus, 0)
  else if (biome + 1) % s.settings.classes = kind then (0, 0)
  else (0, s.settings.biome_penalty)

/-- Flat cell counts of the three biome classes. -/
def biomeCounts (b : List (List Nat)) : Nat × Nat × Nat :=
  (b.flatten.count 0, b.flatten.count 1, b.flatten.count 2)

/-- The balance property claimed of the biome partition: the three group
sizes pairwise differ by at most the remainder of `n` after thirds. -/
def biomeBalanced (b : List (List Nat)) (n : Nat) : Prop :=
  (biomeCounts b).1 ≤ (biomeCounts b).2.1 + n % 3 ∧
  (biomeCounts b).2.1 ≤ (biomeCounts b).1 + n % 3 ∧
  (biomeCounts b).1 ≤ (biomeCounts b).2.2 + n % 3 ∧
  (biomeCounts b).2.2 ≤ (biomeCounts b).1 + n % 3 ∧
  (biomeCounts b).2.1 ≤ (biomeCounts b).2.2 + n % 3 ∧
  (biomeCounts b).2.2 ≤ (biomeCounts b).2.1 + n % 3

/-- The noise layer that `_generate_biomes` classifies, as generated during
`Environment.__init__` right after the humidity and fertility layers have
consumed their draws. -/
def Environment.biomeNoiseOf (w h : Nat) (r : RNG) : List (List ℚ) :=
  (Environment.generateLayer w h (1/2) (35/100) 0 3
    (Environment.generateLayer w h (1/2) (24/100) (16/100) 4
      (Environment.generateLayer w h (55/100) (22/100) (-(2/10)) 4 r).2).2).1

/-- A minimal environment used by concrete witness states. -/
def trivEnv : Environment := ⟨1, 1, [[none]], [[0]], [[0]], [[0]]⟩

/-- Concrete settings for the reset counterexample: 1x1 grid, no initial
agents, so construction consumes exactly the three layer draws. -/
def c3Settings : Settings := { grid_width := 1, grid_height := 1, initial_orc_ratio := 0 }

/-- Concrete rng stream whose fourth draw differs from its first, so the
regenerated humidity layer differs from the original. -/
def c3Rng : RNG := ⟨[0, 0, 0, 1, 0, 0], []⟩

/-- Concrete state with `classes = 2` for the biome-effect counterexample. -/
def c5Sim : Sim := ⟨{ classes := 2 }, ⟨[], []⟩, trivEnv, [], 0, 1⟩

/-- Concrete one-agent state on a humidity-0.3, biome-0 cell for the
pressure-scenario claim. -/
def c7Sim : Sim :=
  ⟨DEFAULT_SETTINGS, ⟨[], []⟩, ⟨1, 1, [[some 1]], [[3/10]], [[0]], [[0]]⟩,
    [(1, ⟨1, (0, 0), 0, 1, 1, 1, 18, 0, false, 0⟩)], 0, 2⟩

/-- The agent of `c7bSim`. -/
def c7bOrc : Orc := ⟨1, (0, 0), 0, 1, 1, 1, 18, 0, false, 0⟩

/-- Concrete one-agent state on a humidity-0.3 cell whose biome (2) is
neutral for the agent's kind (0). -/
def c7bSim : Sim :=
  ⟨DEFAULT_SETTINGS, ⟨[], []⟩, ⟨1, 1, [[some 1]], [[3/10]], [[0]], [[2]]⟩,
    [(1, c7bOrc)], 0, 2⟩

/-- The reproducing parent of `c8Sim`. -/
def c8Orc : Orc := ⟨1, (0, 0), 0, 1, 1, 1, 18, 0, false, 0⟩

/-- Concrete two-agent state on a 2x2 grid where the parent (id 1) has a
same-kind neighbor (id 2), an empty neighbor cell, enough energy, and the
next unit draw (0) passes the chance test, so reproduction succeeds. -/
def c8Sim : Sim :=
  ⟨DEFAULT_SETTINGS, ⟨[0, 1/2, 1/2, 1/2], []⟩,
    ⟨2, 2, [[some 1, some 2], [none, none]], [[1/2, 1/2], [1/2, 1/2]],
      [[0, 0], [0, 0]], [[0, 0], [0, 0]]⟩,
    [(1, c8Orc), (2, ⟨2, (1, 0), 0, 1, 1, 1, 18, 0, false, 0⟩)], 0, 3⟩

/-- Challenger for the fight-tie witness. -/
def c9Ch : Orc := ⟨1, (0, 0), 0, 1, 1, 1, 10, 0, false, 0⟩

/-- Defender for the fight-tie witness. -/
def c9Df : Orc := ⟨2, (1, 0), 1, 1, 1, 1, 10, 0, false, 0⟩

/-- Concrete symmetric fight on a 2x1 grid: identical traits, equal jitter
draws, no fight cost, skirmish threshold zero so the tie is decisive. -/
def c9Sim : Sim :=
  ⟨{ fight_cost := 0, skirmish_threshold := 0 }, ⟨[1/2, 1/2], []⟩,
    ⟨2, 1, [[some 1, some 2]], [[0, 0]], [[0, 0]], [[0, 0]]⟩,
    [(1, c9Ch), (2, c9Df)], 0, 3⟩

/-- Concrete state with an empty population (tick 5). -/
def emptyPopSim : Sim := ⟨DEFAULT_SETTINGS, ⟨[], []⟩, trivEnv, [], 5, 1⟩

/-- The first agent of `c4Sim`. -/
def c4Orc : Orc := ⟨1, (0, 0), 0, 1, 1, 1, 10, 0, false, 0⟩

/-- Concrete overpopulated state: cap 2, three live agents. -/
def c4Sim : Sim :=
  ⟨{ max_population := 2 }, ⟨[0, 0], []⟩,
    ⟨3, 1, [[some 1, some 2, some 3]], [[1/2, 1/2, 1/2]], [[0, 0, 0]], [[0, 0, 0]]⟩,
    [(1, ⟨1, (0, 0), 0, 1, 1, 1, 10, 0, false, 0⟩),
     (2, ⟨2, (1, 0), 0, 1, 1, 1, 10, 0, false, 0⟩),
     (3, ⟨3, (2, 0), 0, 1, 1, 1, 10, 0, false, 0⟩)], 0, 4⟩

section Theorems

theorem lookupOrc_cons (e : Nat × Orc) (rest : Population) (j : Nat) :
    lookupOrc (e :: rest) j = if e.1 = j then some e.2 else lookupOrc rest j := rfl

theorem lookupOrc_updateOrc (p : Population) (id j : Nat) (f : Orc → Orc) :
    lookupOrc (updateOrc p id f) j =
      if j = id then (lookupOrc p j).map f else lookupOrc p j := by
  induction p with
  | nil => simp [lookupOrc, updateOrc]
  | cons e rest ih =>
    simp only [updateOrc, List.map_cons] at ih ⊢
    by_cases h1 : e.1 = id
    · by_cases h2 : e.1 = j
      · have h3 : j = id := by omega
        simp [lookupOrc_cons, h1, h2, h3]
      · have h3 : ¬ j = id := by omega
        have h4 : ¬ id = j := by omega
        simp [h3] at ih
        simpa [lookupOrc_cons, h1, h2, h3, h4] using ih
    · by_cases h2 : e.1 = j
      · have h3 : ¬ j = id := by omega
        simp [lookupOrc_cons, h1, h2, h3]
      · simpa [lookupOrc_cons, h1, h2] using ih

theorem eraseOrc_cons (e : Nat × Orc) (rest : Population) (id : Nat) :
    eraseOrc (e :: rest) id =
      if e.1 = id then eraseOrc rest id else e :: eraseOrc rest id := by
  simp only [eraseOrc, List.filter_cons]
  by_cases h : e.1 = id <;> simp [h]

theorem lookupOrc_eraseOrc (p : Population) (id j : Nat) :
    lookupOrc (eraseOrc p id) j = if j = id then none else lookupOrc p j := by
  induction p with
  | nil => simp [lookupOrc, eraseOrc]
  | cons e rest ih =>
    rw [eraseOrc_cons]
    by_cases h1 : e.1 = id
    · rw [if_pos h1, ih]
      by_cases h3 : j = id
      · simp [h3]
      · have h2 : ¬ e.1 = j := by omega
        simp [h3, lookupOrc_cons, h2]
    · rw [if_neg h1, lookupOrc_cons]
      by_cases h2 : e.1 = j
      · have h3 : ¬ j = id := by omega
        simp [h2, h3, lookupOrc_cons]
      · simp [h2, ih, lookupOrc_cons]

theorem lookupOrc_append (p q : Population) (j : Nat) :
    lookupOrc (p ++ q) j =
      match lookupOrc p j with
      | some o => some o
      | none => lookupOrc q j := by
  induction p with
  | nil => simp [lookupOrc]
  | cons e rest ih =>
    by_cases h : e.1 = j <;> simp [lookupOrc, h, ih]

theorem updateOrcF_env (s : Sim) (id : Nat) (f : Orc → Orc) :
    (s.updateOrcF id f).env = s.env := rfl

theorem updateOrcF_settings (s : Sim) (id : Nat) (f : Orc → Orc) :
    (s.updateOrcF id f).settings = s.settings := rfl

theorem updateOrcF_population (s : Sim) (id : Nat) (f : Orc → Orc) :
    (s.updateOrcF id f).population = updateOrc s.population id f := rfl

theorem updateOrcF_nextId (s : Sim) (id : Nat) (f : Orc → Orc) :
    (s.updateOrcF id f).nextId = s.nextId := rfl

theorem biomeEffect_updateOrcF (s : Sim) (id : Nat) (f : Orc → Orc) (k b : Nat) :
    (s.updateOrcF id f).biomeEffect k b = s.biomeEffect k b := rfl

theorem tickO_position (o : Orc) (d : ℚ) : (o.tickO d).position = o.position := rfl

theorem tickO_kind (o : Orc) (d : ℚ) : (o.tickO d).kind = o.kind := rfl

theorem lookupOrc_nil (j : Nat) : lookupOrc [] j = none := rfl

theorem lookupOrc_append_single_ne (p : Population) (e : Nat × Orc) (j : Nat)
    (hj : e.1 ≠ j) : lookupOrc (p ++ [e]) j = lookupOrc p j := by
  rw [lookupOrc_append]
  cases h : lookupOrc p j <;> simp [lookupOrc_cons, lookupOrc_nil, hj]

theorem simRng_env (s : Sim) (r : RNG) : ({ s with rng := r } : Sim).env = s.env := rfl

theorem simRng_population (s : Sim) (r : RNG) :
    ({ s with rng := r } : Sim).population = s.population := rfl

theorem simRng_settings (s : Sim) (r : RNG) :
    ({ s with rng := r } : Sim).settings = s.settings := rfl

theorem simRng_nextId (s : Sim) (r : RNG) :
    ({ s with rng := r } : Sim).nextId = s.nextId := rfl

theorem registerPlace_nextId (s : Sim) (o : Orc) (x y : Int) :
    (s.registerPlace o x y).nextId = s.nextId := by
  unfold Sim.registerPlace Sim.placeOrc
  split <;> rfl

theorem lookupOrc_registerPlace_self (s : Sim) (o : Orc) (x y : Int)
    (hfresh : lookupOrc s.population o.id = none) :
    ∃ c, lookupOrc (s.registerPlace o x y).population o.id = some c ∧
      c.id = o.id ∧ c.kind = o.kind ∧ c.age = o.age ∧ c.infected = o.infected ∧
      c.energy = o.energy := by
  unfold Sim.registerPlace Sim.placeOrc
  split
  · refine ⟨{ o with position := (x, y) }, ?_, rfl, rfl, rfl, rfl, rfl⟩
    simp [lookupOrc_updateOrc, lookupOrc_append, hfresh, lookupOrc_cons, lookupOrc_nil]
  · refine ⟨o, ?_, rfl, rfl, rfl, rfl, rfl⟩
    simp [lookupOrc_append, hfresh, lookupOrc_cons, lookupOrc_nil]

theorem lookupOrc_registerPlace_ne (s : Sim) (o : Orc) (x y : Int) (j : Nat)
    (hj : j ≠ o.id) :
    lookupOrc (s.registerPlace o x y).population j = lookupOrc s.population j := by
  unfold Sim.registerPlace Sim.placeOrc
  split
  · simp only [lookupOrc_updateOrc, if_neg hj]
    exact lookupOrc_append_single_ne _ _ _ (Ne.symm hj)
  · exact lookupOrc_append_single_ne _ _ _ (Ne.symm hj)

theorem cloneWithMutation_id (o : Orc) (r : RNG) (rate scale : ℚ) (nid : Nat) :
    (o.cloneWithMutation r rate scale nid).1.id = nid := rfl

theorem cloneWithMutation_kind (o : Orc) (r : RNG) (rate scale : ℚ) (nid : Nat) :
    (o.cloneWithMutation r rate scale nid).1.kind = o.kind := rfl

theorem cloneWithMutation_age (o : Orc) (r : RNG) (rate scale : ℚ) (nid : Nat) :
    (o.cloneWithMutation r rate scale nid).1.age = 0 := rfl

theorem cloneWithMutation_infected (o : Orc) (r : RNG) (rate scale : ℚ) (nid : Nat) :
    (o.cloneWithMutation r rate scale nid).1.infected = false := rfl

theorem reproduceSuccess_props (s1 : Sim) (orc : Orc) (empties : List Coord)
    (hl : lookupOrc s1.population orc.id = some orc)
    (hfresh : lookupOrc s1.population s1.nextId = none)
    (hne : orc.id ≠ s1.nextId) :
    ∃ child, lookupOrc (s1.reproduceSuccess orc empties).2.population s1.nextId = some child ∧
      child.id = s1.nextId ∧ child.kind = orc.kind ∧ child.age = 0 ∧
      child.infected = false ∧
      child.energy = max 2 (min s1.settings.base_energy
        (orc.energy * s1.settings.reproduction_energy_share)) ∧
      (s1.reproduceSuccess orc empties).2.nextId = s1.nextId + 1 ∧
      (lookupOrc (s1.reproduceSuccess orc empties).2.population orc.id).map Orc.energy =
        some (orc.energy - max 2 (min s1.settings.base_energy
          (orc.energy * s1.settings.reproduction_energy_share))) := by
  obtain ⟨c, hcl, hcid, hckind, hcage, hcinf, hcen⟩ :=
    lookupOrc_registerPlace_self
      ({ s1 with
          rng := (orc.cloneWithMutation (s1.rng.choice empties ((0 : Int), (0 : Int))).2
            s1.settings.mutation_rate s1.settings.mutation_scale s1.nextId).2,
          nextId := s1.nextId + 1 } : Sim)
      { (orc.cloneWithMutation (s1.rng.choice empties ((0 : Int), (0 : Int))).2
          s1.settings.mutation_rate s1.settings.mutation_scale s1.nextId).1 with
        energy := max 2 (min s1.settings.base_energy
          (orc.energy * s1.settings.reproduction_energy_share)) }
      ((s1.rng.choice empties ((0 : Int), (0 : Int))).1).1
      ((s1.rng.choice empties ((0 : Int), (0 : Int))).1).2
      hfresh
  simp only [Sim.reproduceSuccess, Sim.adjustEnergy, updateOrcF_population,
    updateOrcF_nextId]
  refine ⟨c, ?_, hcid, hckind, hcage, hcinf, hcen, ?_, ?_⟩
  · rw [lookupOrc_updateOrc, if_neg (Ne.symm hne)]
    exact hcl
  · exact registerPlace_nextId _ _ _ _
  · rw [lookupOrc_updateOrc, if_pos rfl,
      lookupOrc_registerPlace_ne _ _ _ _ _ hne, hl]
    simp only [Option.map_some', Option.map_some, Orc.adjustEnergyO,
      Option.some.injEq]
    rw [← sub_eq_add_neg]

/-- C8: a successful reproduction attempt registers a child under the fresh
id `next_id` (which then increments) with the parent's kind, age 0, not
infected, energy `clamp(parent_energy * reproduction_energy_share, 2.0,
base_energy)`, and the parent loses exactly that amount of energy. -/
theorem reproduction_child_properties (s : Sim) (orc : Orc)
    (hl : lookupOrc s.population orc.id = some orc)
    (hfresh : lookupOrc s.population s.nextId = none)
    (hne : orc.id ≠ s.nextId)
    (hsucc : (s.maybeReproduce orc).1 = true) :
    ∃ child, lookupOrc (s.maybeReproduce orc).2.population s.nextId = some child ∧
      child.id = s.nextId ∧ child.kind = orc.kind ∧ child.age = 0 ∧
      child.infected = false ∧
      child.energy = max 2 (min s.settings.base_energy
        (orc.energy * s.settings.reproduction_energy_share)) ∧
      (s.maybeReproduce orc).2.nextId = s.nextId + 1 ∧
      (lookupOrc (s.maybeReproduce orc).2.population orc.id).map Orc.energy =
        some (orc.energy - max 2 (min s.settings.base_energy
          (orc.energy * s.settings.reproduction_energy_share))) := by
  simp only [Sim.maybeReproduce] at hsucc ⊢
  by_cases hc1 : orc.energy < s.reproThreshold orc
  · rw [if_pos hc1] at hsucc
    exact absurd hsucc (by simp)
  rw [if_neg hc1] at hsucc ⊢
  by_cases hc2 : s.rng.random.1 > s.reproChance orc
  · rw [if_pos hc2] at hsucc
    exact absurd hsucc (by simp)
  rw [if_neg hc2] at hsucc ⊢
  by_cases hc3 : ¬ ({ s with rng := s.rng.random.2 } : Sim).allyAdjacentTo orc
  · rw [if_pos hc3] at hsucc
    exact absurd hsucc (by simp)
  rw [if_neg hc3] at hsucc ⊢
  by_cases hc4 : ({ s with rng := s.rng.random.2 } : Sim).env.emptyNeighbors
      orc.position.1 orc.position.2 = []
  · rw [if_pos hc4] at hsucc
    exact absurd hsucc (by simp)
  rw [if_neg hc4]
  exact reproduceSuccess_props ({ s with rng := s.rng.random.2 } : Sim) orc _ hl hfresh hne

theorem reproduction_child_properties_witness :
    lookupOrc c8Sim.population c8Orc.id = some c8Orc ∧
      lookupOrc c8Sim.population c8Sim.nextId = none ∧
      c8Orc.id ≠ c8Sim.nextId ∧ (c8Sim.maybeReproduce c8Orc).1 = true ∧
      (∃ child, lookupOrc (c8Sim.maybeReproduce c8Orc).2.population c8Sim.nextId = some child ∧
        child.id = c8Sim.nextId ∧ child.kind = c8Orc.kind ∧ child.age = 0 ∧
        child.infected = false ∧
        child.energy = max 2 (min c8Sim.settings.base_energy
          (c8Orc.energy * c8Sim.settings.reproduction_energy_share)) ∧
        (c8Sim.maybeReproduce c8Orc).2.nextId = c8Sim.nextId + 1 ∧
        (lookupOrc (c8Sim.maybeReproduce c8Orc).2.population c8Orc.id).map Orc.energy =
          some (c8Orc.energy - max 2 (min c8Sim.settings.base_energy
            (c8Orc.energy * c8Sim.settings.reproduction_energy_share)))) := by
  have hs : (c8Sim.maybeReproduce c8Orc).1 = true := by
    simp only [Sim.maybeReproduce, Sim.reproThreshold, Sim.reproChance,
      Sim.reproduceEndangered, Sim.kindCount, Sim.allyAdjacentTo,
      Sim.reproduceSuccess, Environment.occupiedNeighbors, Environment.emptyNeighbors,
      Environment.neighbors, Environment.get, Environment.inBounds,
      lookupOrc, c8Sim, c8Orc, DEFAULT_SETTINGS, RNG.random,
      List.filter, List.map, List.any, List.length, List.headD, List.tail,
      List.getD, List.get?, Int.toNat, Option.isSome, Option.isNone]
    norm_num
  exact ⟨rfl, rfl, by decide, hs,
    reproduction_child_properties c8Sim c8Orc rfl rfl (by decide) hs⟩

theorem removeOrc_population (s : Sim) (o : Orc) :
    (s.removeOrc o).population = eraseOrc s.population o.id := rfl

theorem adjustEnergyO_id (o : Orc) (d : ℚ) : (o.adjustEnergyO d).id = o.id := rfl

/-- C9: in `_resolve_fight`, exactly equal combat scores designate the
challenger as winner (the comparison is `challenge_score >= defense_score`);
in a decisive (non-skirmish) outcome the defender is removed and the
challenger receives the fight reward (net of the engagement cost) and the
permanent trait gains strength +0.05 and resilience +0.03. -/
theorem fight_tie_challenger_wins (s : Sim) (ch df ch1 df1 : Orc) (s1 : Sim)
    (hs1 : s1 = s.fightEngage ch.id df.id)
    (hch1 : ch1 = ch.adjustEnergyO (-(s.settings.fight_cost * (1/2))))
    (hdf1 : df1 = df.adjustEnergyO (-(s.settings.fight_cost * (1/2))))
    (hlc : lookupOrc s.population ch.id = some ch)
    (hld : lookupOrc s.population df.id = some df)
    (hne : ch.id ≠ df.id)
    (hce : ¬ ch1.energy ≤ 0)
    (hde : ¬ df1.energy ≤ 0)
    (heq : (s1.fightScores ch1 df1).1.1 = (s1.fightScores ch1 df1).1.2)
    (hdec : s.settings.skirmish_threshold ≤ 0)
    (hwin : ¬ (ch1.adjustEnergyO
      (s.settings.fight_reward - s.settings.fight_cost * (1/2))).energy ≤ 0) :
    lookupOrc (s.resolveFight ch df).population df.id = none ∧
    (lookupOrc (s.resolveFight ch df).population ch.id).map Orc.energy =
      some (ch.energy - s.settings.fight_cost + s.settings.fight_reward) ∧
    (lookupOrc (s.resolveFight ch df).population ch.id).map Orc.strength =
      some (ch.strength + 5/100) ∧
    (lookupOrc (s.resolveFight ch df).population ch.id).map Orc.resilience =
      some (ch.resilience + 3/100) := by
  subst hs1
  subst hch1
  subst hdf1
  have hne' : df.id ≠ ch.id := Ne.symm hne
  have hch1l : lookupOrc (s.fightEngage ch.id df.id).population ch.id
      = some (ch.adjustEnergyO (-(s.settings.fight_cost * (1/2)))) := by
    simp only [Sim.fightEngage, Sim.adjustEnergy, updateOrcF_population]
    rw [lookupOrc_updateOrc, if_neg hne, lookupOrc_updateOrc, if_pos rfl, hlc,
      Option.map_some']
  have hdf1l : lookupOrc (s.fightEngage ch.id df.id).population df.id
      = some (df.adjustEnergyO (-(s.settings.fight_cost * (1/2)))) := by
    simp only [Sim.fightEngage, Sim.adjustEnergy, updateOrcF_population]
    rw [lookupOrc_updateOrc, if_pos rfl, lookupOrc_updateOrc, if_neg hne', hld,
      Option.map_some']
  simp only [Sim.resolveFight]
  rw [if_neg (by simp [hlc, hld])]
  simp only [hch1l, hdf1l]
  rw [if_neg hce, if_neg hde, heq, sub_self, abs_zero,
    if_neg (not_lt.mpr hdec), if_pos (le_refl _), if_pos (le_refl _)]
  simp only [Sim.adjustEnergy, updateOrcF_population, removeOrc_population,
    simRng_population, lookupOrc_updateOrc, lookupOrc_eraseOrc, adjustEnergyO_id,
    hne, hne', eq_self_iff_true, if_true, if_false, ite_true, ite_false,
    hch1l, Option.map_some']
  rw [if_neg hwin]
  simp only [Sim.adjustEnergy, updateOrcF_population, removeOrc_population,
    simRng_population, lookupOrc_updateOrc, lookupOrc_eraseOrc, adjustEnergyO_id,
    hne, hne', eq_self_iff_true, if_true, if_false, ite_true, ite_false,
    hch1l, Option.map_some', Orc.adjustEnergyO, Option.some.injEq]
  refine ⟨?_, ?_, ?_, ?_⟩ <;> first
    | rfl
    | ring

theorem fight_tie_challenger_wins_witness :
    ((c9Sim.fightEngage c9Ch.id c9Df.id).fightScores
        (c9Ch.adjustEnergyO (-(c9Sim.settings.fight_cost * (1/2))))
        (c9Df.adjustEnergyO (-(c9Sim.settings.fight_cost * (1/2))))).1.1 =
      ((c9Sim.fightEngage c9Ch.id c9Df.id).fightScores
        (c9Ch.adjustEnergyO (-(c9Sim.settings.fight_cost * (1/2))))
        (c9Df.adjustEnergyO (-(c9Sim.settings.fight_cost * (1/2))))).1.2 ∧
    c9Sim.settings.skirmish_threshold ≤ 0 ∧
    lookupOrc (c9Sim.resolveFight c9Ch c9Df).population c9Df.id = none ∧
    (lookupOrc (c9Sim.resolveFight c9Ch c9Df).population c9Ch.id).map Orc.energy =
      some (c9Ch.energy - c9Sim.settings.fight_cost + c9Sim.settings.fight_reward) ∧
    (lookupOrc (c9Sim.resolveFight c9Ch c9Df).population c9Ch.id).map Orc.strength =
      some (c9Ch.strength + 5/100) ∧
    (lookupOrc (c9Sim.resolveFight c9Ch c9Df).population c9Ch.id).map Orc.resilience =
      some (c9Ch.resilience + 3/100) := by
  have heq : ((c9Sim.fightEngage c9Ch.id c9Df.id).fightScores
      (c9Ch.adjustEnergyO (-(c9Sim.settings.fight_cost * (1/2))))
      (c9Df.adjustEnergyO (-(c9Sim.settings.fight_cost * (1/2))))).1.1 =
      ((c9Sim.fightEngage c9Ch.id c9Df.id).fightScores
        (c9Ch.adjustEnergyO (-(c9Sim.settings.fight_cost * (1/2))))
        (c9Df.adjustEnergyO (-(c9Sim.settings.fight_cost * (1/2))))).1.2 := by
    simp only [Sim.fightScores, Sim.fightEngage, Sim.adjustEnergy, Sim.effectiveFitness,
      Sim.localSupportScore, Sim.socialCounts, Sim.squareCoords, intRange,
      Sim.updateOrcF, updateOrc, lookupOrc, Environment.get, Environment.inBounds,
      Orc.fitness, Orc.adjustEnergyO, RNG.uniform, RNG.random,
      c9Sim, c9Ch, c9Df, List.map, List.flatMap, List.filterMap, List.countP,
      List.range, List.range.loop, List.length, List.headD, List.tail,
      List.getD, List.get?, List.append, Int.toNat, List.countP, List.countP.go,
      Nat.beq, bne, cond, beq_iff_eq]
    norm_num
    simp

  have hdec : c9Sim.settings.skirmish_threshold ≤ 0 := le_refl 0
  have hmain := fight_tie_challenger_wins c9Sim c9Ch c9Df
    (c9Ch.adjustEnergyO (-(c9Sim.settings.fight_cost * (1/2))))
    (c9Df.adjustEnergyO (-(c9Sim.settings.fight_cost * (1/2))))
    (c9Sim.fightEngage c9Ch.id c9Df.id) rfl rfl rfl rfl rfl (by decide)
    (by norm_num [Orc.adjustEnergyO, c9Ch, c9Sim])
    (by norm_num [Orc.adjustEnergyO, c9Df, c9Sim])
    heq hdec
    (by norm_num [Orc.adjustEnergyO, c9Ch, c9Sim])
  exact ⟨heq, hdec, hmain.1, hmain.2.1, hmain.2.2.1, hmain.2.2.2⟩

theorem countP_split {α : Type} (p q : α → Bool) (l : List α)
    (h : ∀ a ∈ l, q a = true → p a = true) :
    List.countP p l = List.countP q l + List.countP (fun a => p a && !q a) l := by
  induction l with
  | nil => simp
  | cons x xs ih =>
    simp only [List.countP_cons]
    rw [ih (fun a ha hq => h a (List.mem_cons_of_mem _ ha) hq)]
    have hx := h x (List.mem_cons_self _ _)
    cases hq : q x <;> cases hp : p x
    · simp [hq, hp] <;> omega
    · simp [hq, hp] <;> omega
    · exact absurd (hx hq) (by simp [hp])
    · simp [hq, hp] <;> omega

theorem countP_lt_pivot (l : List ℚ) (x : ℚ) (hs : List.Pairwise (· < ·) l)
    (i : Nat) (hi : i < l.length) (hx : l[i] = x) :
    List.countP (fun v => decide (v < x)) l = i := by
  have hforall := List.pairwise_iff_getElem.1 hs
  have h1 : List.countP (fun v => decide (v < x)) (List.take i l) =
      (List.take i l).length := by
    rw [List.countP_eq_length]
    intro v hv
    obtain ⟨j, hj, hvj⟩ := List.mem_iff_getElem.1 hv
    have hjlen := hj
    rw [List.length_take] at hjlen
    have hji : j < i := by omega
    rw [List.getElem_take] at hvj
    subst hvj
    simp only [decide_eq_true_eq]
    exact hx ▸ hforall j i (by omega) hi hji
  have h2 : List.countP (fun v => decide (v < x)) (List.drop i l) = 0 := by
    rw [List.countP_eq_zero]
    intro v hv
    obtain ⟨j, hj, hvj⟩ := List.mem_iff_getElem.1 hv
    have hjlen := hj
    rw [List.length_drop] at hjlen
    rw [List.getElem_drop] at hvj
    subst hvj
    simp only [decide_eq_true_eq, not_lt]
    rcases Nat.eq_zero_or_pos j with hj0 | hj0
    · subst hj0
      exact le_of_eq (by simpa using hx.symm)
    · have hlt := hforall i (i + j) hi (by omega) (by omega)
      exact le_of_lt (hx ▸ hlt)
  have hsplit := List.take_append_drop i l
  have : List.countP (fun v => decide (v < x)) l =
      List.countP (fun v => decide (v < x)) (List.take i l ++ List.drop i l) := by
    rw [hsplit]
  rw [this, List.countP_append, h1, h2, List.length_take]
  omega

theorem flatten_length_of_shape {α : Type} (rows : List (List α)) (w : Nat)
    (h : ∀ row ∈ rows, row.length = w) :
    rows.flatten.length = rows.length * w := by
  induction rows with
  | nil => simp
  | cons r rest ih =>
    simp only [List.flatten_cons, List.length_append, List.length_cons,
      h r (List.mem_cons_self _ _), ih (fun x hx => h x (List.mem_cons_of_mem _ hx))]
    ring

theorem tertile_count0 (t1 t2 : ℚ) (l : List ℚ) :
    List.countP ((fun x => x == 0) ∘
      (fun v => if v < t1 then (0 : Nat) else if v < t2 then 1 else 2)) l =
    List.countP (fun v => decide (v < t1)) l := by
  apply List.countP_congr
  intro v hv
  by_cases hv1 : v < t1
  · simp [hv1]
  · by_cases hv2 : v < t2 <;> simp [hv1, hv2]

theorem tertile_count1 (t1 t2 : ℚ) (l : List ℚ) :
    List.countP ((fun x => x == 1) ∘
      (fun v => if v < t1 then (0 : Nat) else if v < t2 then 1 else 2)) l =
    List.countP (fun v => decide (v < t2) && !decide (v < t1)) l := by
  apply List.countP_congr
  intro v hv
  by_cases hv1 : v < t1
  · simp [hv1]
  · by_cases hv2 : v < t2 <;> simp [hv1, hv2]

theorem tertile_count2 (t1 t2 : ℚ) (ht : t1 ≤ t2) (l : List ℚ) :
    List.countP ((fun x => x == 2) ∘
      (fun v => if v < t1 then (0 : Nat) else if v < t2 then 1 else 2)) l =
    List.countP (fun v => decide ¬ (decide (v < t2) = true)) l := by
  apply List.countP_congr
  intro v hv
  by_cases hv1 : v < t1
  · have hv2 : v < t2 := lt_of_lt_of_le hv1 ht
    simp [hv1, hv2]
  · by_cases hv2 : v < t2 <;> simp [hv1, hv2]

/-- Cell counts of the tertile classification on duplicate-free noise:
exactly a third, a third, and a third plus the remainder. -/
theorem classifyTertiles_counts (noise : List (List ℚ))
    (hnd : noise.flatten.Nodup) (hne : noise.flatten ≠ []) :
    biomeCounts (Environment.classifyTertiles noise) =
      (noise.flatten.length / 3, noise.flatten.length / 3,
        noise.flatten.length - 2 * (noise.flatten.length / 3)) := by
  have hperm : (noise.flatten.mergeSort (fun a b => decide (a ≤ b))).Perm noise.flatten :=
    List.mergeSort_perm noise.flatten _
  have hslen : (noise.flatten.mergeSort (fun a b => decide (a ≤ b))).length =
      noise.flatten.length := hperm.length_eq
  have hpwle : List.Pairwise (· ≤ ·)
      (noise.flatten.mergeSort (fun a b => decide (a ≤ b))) := by
    have hms : List.Pairwise (fun a b => decide (a ≤ b) = true)
        (noise.flatten.mergeSort (fun a b => decide (a ≤ b))) :=
      List.sorted_mergeSort
        (fun (a b c : ℚ) hab hbc => by
          rw [decide_eq_true_eq] at hab hbc ⊢
          exact le_trans hab hbc)
        (fun (a b : ℚ) => by
          rw [Bool.or_eq_true, decide_eq_true_eq, decide_eq_true_eq]
          exact le_total a b) noise.flatten
    exact hms.imp (fun hab => by simpa using hab)
  have hnds : (noise.flatten.mergeSort (fun a b => decide (a ≤ b))).Nodup :=
    hperm.symm.nodup hnd
  have hpwlt : List.Pairwise (· < ·)
      (noise.flatten.mergeSort (fun a b => decide (a ≤ b))) :=
    (hpwle.and hnds).imp (fun hab => lt_of_le_of_ne hab.1 hab.2)
  have hnpos : 0 < noise.flatten.length := List.length_pos.2 hne
  have hti : noise.flatten.length / 3 < noise.flatten.length := by omega
  have h2ti : 2 * (noise.flatten.length / 3) < noise.flatten.length := by omega
  have hti' : noise.flatten.length / 3 <
      (noise.flatten.mergeSort (fun a b => decide (a ≤ b))).length := by
    rw [hslen]; exact hti
  have h2ti' : 2 * (noise.flatten.length / 3) <
      (noise.flatten.mergeSort (fun a b => decide (a ≤ b))).length := by
    rw [hslen]; exact h2ti
  have hgd1 : (noise.flatten.mergeSort (fun a b => decide (a ≤ b))).getD
      (noise.flatten.length / 3) 0 =
      (noise.flatten.mergeSort (fun a b => decide (a ≤ b)))[noise.flatten.length / 3] :=
    List.getD_eq_getElem _ 0 hti'
  have hgd2 : (noise.flatten.mergeSort (fun a b => decide (a ≤ b))).getD
      (2 * (noise.flatten.length / 3)) 0 =
      (noise.flatten.mergeSort
        (fun a b => decide (a ≤ b)))[2 * (noise.flatten.length / 3)] :=
    List.getD_eq_getElem _ 0 h2ti'
  have ht1le2 : (noise.flatten.mergeSort (fun a b => decide (a ≤ b))).getD
      (noise.flatten.length / 3) 0 ≤
      (noise.flatten.mergeSort (fun a b => decide (a ≤ b))).getD
        (2 * (noise.flatten.length / 3)) 0 := by
    rcases Nat.eq_zero_or_pos (noise.flatten.length / 3) with h0 | h0
    · have h00 : 2 * (noise.flatten.length / 3) = noise.flatten.length / 3 := by omega
      rw [h00]
    · rw [hgd1, hgd2]
      exact le_of_lt (List.pairwise_iff_getElem.1 hpwlt _ _ hti' h2ti' (by omega))
  have hc1 : List.countP (fun v => decide (v <
      (noise.flatten.mergeSort (fun a b => decide (a ≤ b))).getD
        (noise.flatten.length / 3) 0)) noise.flatten = noise.flatten.length / 3 := by
    rw [← hperm.countP_eq]
    exact countP_lt_pivot _ _ hpwlt _ hti' hgd1.symm
  have hc2 : List.countP (fun v => decide (v <
      (noise.flatten.mergeSort (fun a b => decide (a ≤ b))).getD
        (2 * (noise.flatten.length / 3)) 0)) noise.flatten =
      2 * (noise.flatten.length / 3) := by
    rw [← hperm.countP_eq]
    exact countP_lt_pivot _ _ hpwlt _ h2ti' hgd2.symm
  have hflat : (Environment.classifyTertiles noise).flatten =
      noise.flatten.map (fun v =>
        if v < (noise.flatten.mergeSort (fun a b => decide (a ≤ b))).getD
            (noise.flatten.length / 3) 0 then 0
        else if v < (noise.flatten.mergeSort (fun a b => decide (a ≤ b))).getD
            (2 * (noise.flatten.length / 3)) 0 then 1 else 2) := by
    simp only [Environment.classifyTertiles]
    rw [← List.map_flatten]
  unfold biomeCounts
  rw [hflat]
  simp only [List.count_eq_countP, List.countP_map]
  rw [tertile_count0, tertile_count1, tertile_count2 _ _ ht1le2, hc1]
  have hsplit : List.countP (fun v => decide (v <
      (noise.flatten.mergeSort (fun a b => decide (a ≤ b))).getD
        (2 * (noise.flatten.length / 3)) 0)) noise.flatten =
      List.countP (fun v => decide (v <
        (noise.flatten.mergeSort (fun a b => decide (a ≤ b))).getD
          (noise.flatten.length / 3) 0)) noise.flatten +
      List.countP (fun v => decide (v <
        (noise.flatten.mergeSort (fun a b => decide (a ≤ b))).getD
          (2 * (noise.flatten.length / 3)) 0) &&
        !decide (v < (noise.flatten.mergeSort (fun a b => decide (a ≤ b))).getD
          (noise.flatten.length / 3) 0)) noise.flatten :=
    countP_split _ _ noise.flatten
      (fun a ha hq => by
        simp only [decide_eq_true_eq] at hq ⊢
        exact lt_of_lt_of_le hq ht1le2)
  rw [hc1, hc2] at hsplit
  have hnot := List.length_eq_countP_add_countP
    (fun v => decide (v < (noise.flatten.mergeSort (fun a b => decide (a ≤ b))).getD
      (2 * (noise.flatten.length / 3)) 0)) noise.flatten
  rw [hc2] at hnot
  have h2nd : List.countP (fun v => decide (v <
      (noise.flatten.mergeSort (fun a b => decide (a ≤ b))).getD
        (2 * (noise.flatten.length / 3)) 0) &&
      !decide (v < (noise.flatten.mergeSort (fun a b => decide (a ≤ b))).getD
        (noise.flatten.length / 3) 0)) noise.flatten =
      noise.flatten.length / 3 := by omega
  have h3rd : List.countP (fun v => decide ¬ (decide (v <
      (noise.flatten.mergeSort (fun a b => decide (a ≤ b))).getD
        (2 * (noise.flatten.length / 3)) 0) = true)) noise.flatten =
      noise.flatten.length - 2 * (noise.flatten.length / 3) := by omega
  rw [h2nd, h3rd]

/-- Pairwise balance of the three class sizes, as claimed, on
duplicate-free noise. -/
theorem classifyTertiles_balanced (noise : List (List ℚ))
    (hnd : noise.flatten.Nodup) :
    biomeBalanced (Environment.classifyTertiles noise) noise.flatten.length := by
  by_cases hne : noise.flatten = []
  · have hflat : (Environment.classifyTertiles noise).flatten = [] := by
      simp only [Environment.classifyTertiles]
      rw [← List.map_flatten, hne]
      rfl
    unfold biomeBalanced biomeCounts
    rw [hflat]
    simp
  · have hc := classifyTertiles_counts noise hnd hne
    unfold biomeBalanced
    rw [hc]
    dsimp only
    refine ⟨?_, ?_, ?_, ?_, ?_, ?_⟩ <;> omega

/-- C10: `metrics()` is total and never fails on an empty population: with
zero live agents it returns population 0 and zero trait averages. -/
theorem metrics_empty_population (s : Sim) (h : s.population = []) :
    s.metrics = ⟨s.tick, 0, 0, 0, 0⟩ := by
  simp [Sim.metrics, h]

theorem metrics_empty_population_witness :
    emptyPopSim.population = [] ∧ emptyPopSim.metrics = ⟨5, 0, 0, 0, 0⟩ :=
  ⟨rfl, metrics_empty_population emptyPopSim rfl⟩

/-- C2: two engines constructed from the same `Settings` and the same
seed-determined rng stream produce identical sequences of population
snapshots and metrics, and identical full states, over any number of
`step()` calls. -/
theorem two_run_determinism (settings : Settings) (r0 : RNG) (n : Nat)
    (e1 e2 : Sim) (h1 : e1 = Sim.mkSim settings r0) (h2 : e2 = Sim.mkSim settings r0) :
    e1.observations n = e2.observations n ∧ e1.stepN n = e2.stepN n := by
  subst h1; subst h2; exact ⟨rfl, rfl⟩

theorem two_run_determinism_witness :
    (Sim.mkSim c3Settings c3Rng).observations 3 =
        (Sim.mkSim c3Settings c3Rng).observations 3 ∧
      (Sim.mkSim c3Settings c3Rng).stepN 3 = (Sim.mkSim c3Settings c3Rng).stepN 3 :=
  two_run_determinism c3Settings c3Rng 3 _ _ rfl rfl

theorem settings_spawnOrc (s : Sim) (c : Coord) : (s.spawnOrc c).settings = s.settings := by
  simp only [Sim.spawnOrc, Sim.registerPlace, Sim.placeOrc]
  split <;> rfl

theorem settings_spawnFold (l : List Coord) (s : Sim) :
    (l.foldl (fun st c => st.spawnOrc c) s).settings = s.settings := by
  induction l generalizing s with
  | nil => rfl
  | cons c rest ih => rw [List.foldl_cons, ih, settings_spawnOrc]

theorem settings_seedInitialPopulation (s : Sim) :
    s.seedInitialPopulation.settings = s.settings := by
  simp only [Sim.seedInitialPopulation]
  exact settings_spawnFold _ _

set_option maxHeartbeats 1000000 in
/-- C3 counterexample: an engine after `reset()` is not in the state of a
freshly constructed engine with the same Settings and seed stream — the
rng stream already differs (construction consumes three layer draws,
`reset()` consumes three further draws of the same stream instead of
restoring it), so the two states are observably distinct. -/
theorem reset_not_fresh_counterexample :
    (Sim.mkSim c3Settings c3Rng).reset ≠ Sim.mkSim c3Settings c3Rng := by
  have ha : (Sim.mkSim c3Settings c3Rng).rng.floats.length = 3 := by
    simp only [Sim.mkSim, Environment.create, Environment.generateLayer,
      Environment.genRows, Environment.uniformList, Environment.generateBiomes,
      Environment.emptyGrid, Sim.seedInitialPopulation,
      c3Settings, c3Rng, RNG.uniform, RNG.random, RNG.shuffle, RNG.shuffleGo,
      List.headD, List.tail, List.map, List.range, List.range.loop,
      List.length, List.foldl, List.product, List.take, Sim.spawnOrc,
      mul_one, Nat.cast_one, mul_zero, one_mul, Int.floor_zero, Int.toNat_zero]
  have hb : (Sim.mkSim c3Settings c3Rng).reset.rng.floats.length = 0 := by
    simp only [Sim.mkSim, Sim.reset, Environment.create, Environment.generateLayer,
      Environment.genRows, Environment.uniformList, Environment.generateBiomes,
      Environment.emptyGrid, Sim.seedInitialPopulation,
      c3Settings, c3Rng, RNG.uniform, RNG.random, RNG.shuffle, RNG.shuffleGo,
      List.headD, List.tail, List.map, List.range, List.range.loop,
      List.length, List.foldl, List.product, List.take, Sim.spawnOrc,
      mul_one, Nat.cast_one, mul_zero, one_mul, Int.floor_zero, Int.toNat_zero]
  intro h
  rw [h, ha] at hb
  norm_num at hb

/-- C3 amended: `reset()` resets the tick counter, id allocator, population
and environment, but continues the engine's current rng stream: it is
equivalent to fresh construction from the same Settings with the current
rng state (not with the construction-time stream). -/
theorem reset_eq_mk_with_current_rng (s : Sim) :
    s.reset = Sim.mkSim s.settings s.rng ∧ s.reset.settings = s.settings := by
  refine ⟨rfl, ?_⟩
  simp only [Sim.reset]
  exact settings_seedInitialPopulation _

/-- C5 counterexample: with `classes = 2` the code's neutral case
`(biome + 1) % 3 == kind` disagrees with the spec's
`(biome + 1) mod classes == kind` at `kind = 0`, `biome = 1`. -/
theorem biome_effect_spec_counterexample :
    0 < c5Sim.settings.classes ∧ 1 < 3 ∧
      c5Sim.biomeEffect 0 1 ≠ c5Sim.biomeEffectSpec 0 1 := by
  refine ⟨by decide, by decide, ?_⟩
  simp only [Sim.biomeEffect, Sim.biomeEffectSpec, c5Sim]
  norm_num

/-- C5 amended: for every kind below `classes` and biome in `{0,1,2}`,
`biomeEffect` returns the bonus pair on the home biome, the neutral pair
when `(biome + 1) mod 3 == kind` (the cycle length is hard-coded to 3,
independent of the `classes` setting), and the penalty pair otherwise. -/
theorem biome_effect_cycle_mod_three (s : Sim) (kind biome : Nat)
    (hk : kind < s.settings.classes) (hb : biome < 3) :
    (biome = kind → s.biomeEffect kind biome = (s.settings.biome_bonus, 0)) ∧
    (biome ≠ kind → (biome + 1) % 3 = kind → s.biomeEffect kind biome = (0, 0)) ∧
    (biome ≠ kind → (biome + 1) % 3 ≠ kind →
      s.biomeEffect kind biome = (0, s.settings.biome_penalty)) := by
  unfold Sim.biomeEffect
  refine ⟨fun h => ?_, fun h1 h2 => ?_, fun h1 h2 => ?_⟩ <;> simp [*]

/-- C4: above a positive cap, an agent is culled exactly when the unit draw
falls below `min(0.75, overpop_base + overload * overpop_scale)`; at or
below the cap (in particular at exact equality) nothing happens and no
agent is removed. -/
theorem overpop_cull_probability (s : Sim) (orc : Orc)
    (hpos : 0 < s.settings.max_population) :
    ((s.population.length : Int) ≤ s.settings.max_population →
      s.overpopKillCheck orc = (false, s)) ∧
    (s.settings.max_population < (s.population.length : Int) →
      ((s.overpopKillCheck orc).1 = true ↔
        s.rng.random.1 < min (3/4)
          (s.settings.overpop_base +
            ((s.population.length : ℚ) - (s.settings.max_population : ℚ)) /
              (s.settings.max_population : ℚ) * s.settings.overpop_scale)) ∧
      ((s.overpopKillCheck orc).1 = true →
        (s.overpopKillCheck orc).2 = ({ s with rng := s.rng.random.2 } : Sim).removeOrc orc) ∧
      ((s.overpopKillCheck orc).1 = false →
        (s.overpopKillCheck orc).2 = { s with rng := s.rng.random.2 })) := by
  unfold Sim.overpopKillCheck
  constructor
  · intro hle
    rw [if_neg (by omega), if_pos hle]
  · intro hgt
    rw [if_neg (by omega), if_neg (by omega)]
    by_cases hu : s.rng.random.1 < min (3/4)
        (s.settings.overpop_base +
          ((s.population.length : ℚ) - (s.settings.max_population : ℚ)) /
            (s.settings.max_population : ℚ) * s.settings.overpop_scale)
    · simp [hu]
    · simp [hu]

theorem overpop_cull_probability_witness :
    0 < c4Sim.settings.max_population ∧
      (((c4Sim.population.length : Int) ≤ c4Sim.settings.max_population →
        c4Sim.overpopKillCheck c4Orc = (false, c4Sim)) ∧
      (c4Sim.settings.max_population < (c4Sim.population.length : Int) →
        ((c4Sim.overpopKillCheck c4Orc).1 = true ↔
          c4Sim.rng.random.1 < min (3/4)
            (c4Sim.settings.overpop_base +
              ((c4Sim.population.length : ℚ) - (c4Sim.settings.max_population : ℚ)) /
                (c4Sim.settings.max_population : ℚ) * c4Sim.settings.overpop_scale)) ∧
        ((c4Sim.overpopKillCheck c4Orc).1 = true →
          (c4Sim.overpopKillCheck c4Orc).2 =
            ({ c4Sim with rng := c4Sim.rng.random.2 } : Sim).removeOrc c4Orc) ∧
        ((c4Sim.overpopKillCheck c4Orc).1 = false →
          (c4Sim.overpopKillCheck c4Orc).2 = { c4Sim with rng := c4Sim.rng.random.2 }))) :=
  ⟨by decide, overpop_cull_probability c4Sim c4Orc (by decide)⟩

/-- Effect of `_apply_environment_pressure` on the processed agent's energy:
the humidity delta plus the biome bonus minus the biome penalty. -/
theorem applyEnvironmentPressure_energy (s : Sim) (id : Nat) (orc : Orc)
    (hl : lookupOrc s.population id = some orc) :
    (lookupOrc (s.applyEnvironmentPressure id).population id).map Orc.energy =
      some (orc.energy
        + (if s.env.humidityAt orc.position.1 orc.position.2 < 45/100 then
            -((45/100 - s.env.humidityAt orc.position.1 orc.position.2) *
              s.settings.humidity_penalty)
          else if s.env.humidityAt orc.position.1 orc.position.2 > 65/100 then
            (s.env.humidityAt orc.position.1 orc.position.2 - 65/100) *
              s.settings.humidity_bonus
          else 0)
        + (if (s.biomeEffect orc.kind (s.env.biomeAt orc.position.1 orc.position.2)).1 ≠ 0
            then (s.biomeEffect orc.kind (s.env.biomeAt orc.position.1 orc.position.2)).1
            else 0)
        - (if (s.biomeEffect orc.kind (s.env.biomeAt orc.position.1 orc.position.2)).2 ≠ 0
            then (s.biomeEffect orc.kind (s.env.biomeAt orc.position.1 orc.position.2)).2
            else 0)) := by
  simp only [Sim.applyEnvironmentPressure, hl]
  by_cases h1 : s.env.humidityAt orc.position.1 orc.position.2 < 45/100 <;>
    by_cases h2 : s.env.humidityAt orc.position.1 orc.position.2 > 65/100 <;>
    by_cases h3 : (s.biomeEffect orc.kind (s.env.biomeAt orc.position.1 orc.position.2)).1 = 0 <;>
    by_cases h4 : (s.biomeEffect orc.kind (s.env.biomeAt orc.position.1 orc.position.2)).2 = 0 <;>
    simp only [h1, h2, h3, h4, ne_eq, not_true_eq_false, not_false_eq_true, ite_true,
      ite_false, if_true, if_false, Sim.adjustEnergy, updateOrcF_population,
      lookupOrc_updateOrc, if_pos rfl, hl, Option.map_some, Option.map_some',
      Orc.adjustEnergyO, Option.some.injEq, updateOrcF_env, updateOrcF_settings] <;>
    ring

/-- C7 counterexample: on a biome-0 cell with a kind-0 agent, the pressure
step also adds the biome bonus, so the energy after aging plus pressure is
`18 - 0.32 - (0.45-0.3)*humidity_penalty + biome_bonus`, not the claimed
value — even though every hypothesis of the claim holds at this state. -/
theorem pressure_energy_counterexample :
    (lookupOrc c7Sim.population 1).map Orc.energy = some 18 ∧
    c7Sim.settings.energy_decay = 32/100 ∧
    (∀ orc, lookupOrc c7Sim.population 1 = some orc →
      c7Sim.env.humidityAt orc.position.1 orc.position.2 = 3/10) ∧
    (lookupOrc (c7Sim.agingThenPressure 1).population 1).map Orc.energy ≠
      some (18 - 32/100 - (45/100 - 3/10) * c7Sim.settings.humidity_penalty) := by
  refine ⟨rfl, rfl, ?_, ?_⟩
  · intro orc h
    cases Option.some.inj h
    rfl
  · simp only [c7Sim, Sim.agingThenPressure, Sim.applyEnvironmentPressure,
      Sim.updateOrcF, Sim.adjustEnergy, updateOrc, lookupOrc, Sim.biomeEffect,
      Environment.humidityAt, Environment.biomeAt, Orc.tickO, Orc.adjustEnergyO,
      List.map, List.getD, List.get?, Int.toNat_zero, DEFAULT_SETTINGS]
    norm_num
    intro x hx
    rw [lookupOrc_cons, if_pos rfl] at hx
    cases Option.some.inj hx
    norm_num

/-- C7 amended: with energy 18, decay 0.32 and humidity 0.3, the aging step
followed by the environmental-pressure step leaves exactly
`18 - 0.32 - (0.45-0.3)*humidity_penalty` provided the agent's biome effect
at its cell is neutral; otherwise the biome bonus/penalty also applies. -/
theorem pressure_energy_neutral_biome (s : Sim) (id : Nat) (orc : Orc)
    (hl : lookupOrc s.population id = some orc)
    (he : orc.energy = 18) (hd : s.settings.energy_decay = 32/100)
    (hh : s.env.humidityAt orc.position.1 orc.position.2 = 3/10)
    (hb : s.biomeEffect orc.kind (s.env.biomeAt orc.position.1 orc.position.2) = (0, 0)) :
    (lookupOrc (s.agingThenPressure id).population id).map Orc.energy =
      some (18 - 32/100 - (45/100 - 3/10) * s.settings.humidity_penalty) := by
  have h1 : lookupOrc (s.updateOrcF id (fun o => o.tickO s.settings.energy_decay)).population id
      = some (orc.tickO s.settings.energy_decay) := by
    simp [Sim.updateOrcF, lookupOrc_updateOrc, hl]
  unfold Sim.agingThenPressure
  rw [applyEnvironmentPressure_energy _ id _ h1]
  simp only [updateOrcF_env, updateOrcF_settings, biomeEffect_updateOrcF,
    tickO_position, tickO_kind, hh, hb]
  rw [if_pos (by norm_num : (3 : ℚ)/10 < 45/100)]
  simp only [Option.some.injEq, Orc.tickO]
  rw [he, hd]
  ring

theorem pressure_energy_neutral_biome_witness :
    lookupOrc c7bSim.population 1 = some c7bOrc ∧ c7bOrc.energy = 18 ∧
      c7bSim.settings.energy_decay = 32/100 ∧
      c7bSim.env.humidityAt c7bOrc.position.1 c7bOrc.position.2 = 3/10 ∧
      c7bSim.biomeEffect c7bOrc.kind
        (c7bSim.env.biomeAt c7bOrc.position.1 c7bOrc.position.2) = (0, 0) ∧
      (lookupOrc (c7bSim.agingThenPressure 1).population 1).map Orc.energy =
        some (18 - 32/100 - (45/100 - 3/10) * c7bSim.settings.humidity_penalty) :=
  ⟨rfl, rfl, rfl, rfl, rfl,
    pressure_energy_neutral_biome c7bSim 1 c7bOrc rfl rfl rfl rfl rfl⟩

theorem biome_effect_cycle_mod_three_witness :
    (0 < DEFAULT_SETTINGS.classes ∧ 1 < 3) ∧
      ((1 : Nat) = 0 → (Sim.mk DEFAULT_SETTINGS ⟨[], []⟩ trivEnv [] 0 1).biomeEffect 0 1 =
        (DEFAULT_SETTINGS.biome_bonus, 0)) ∧
      ((1 : Nat) ≠ 0 → (1 + 1) % 3 = 0 →
        (Sim.mk DEFAULT_SETTINGS ⟨[], []⟩ trivEnv [] 0 1).biomeEffect 0 1 = (0, 0)) ∧
      ((1 : Nat) ≠ 0 → (1 + 1) % 3 ≠ 0 →
        (Sim.mk DEFAULT_SETTINGS ⟨[], []⟩ trivEnv [] 0 1).biomeEffect 0 1 =
          (0, DEFAULT_SETTINGS.biome_penalty)) :=
  ⟨⟨by decide, by decide⟩,
    biome_effect_cycle_mod_three (Sim.mk DEFAULT_SETTINGS ⟨[], []⟩ trivEnv [] 0 1) 0 1
      (by decide) (by decide)⟩

theorem getD_replicate_helper {α : Type} (n : Nat) (a d : α) (i : Nat) (h : i < n) :
    (List.replicate n a).getD i d = a := by
  rw [List.getD_eq_getElem _ _ (by simpa using h)]
  simp

theorem uniformList_empty (a b : ℚ) (n : Nat) (ns : List Nat) :
    Environment.uniformList a b n ⟨[], ns⟩ = (List.replicate n a, ⟨[], ns⟩) := by
  induction n with
  | zero => rfl
  | succ k ih =>
    simp [Environment.uniformList, RNG.uniform, RNG.random, ih, List.replicate_succ]

theorem genRows_empty (w : Nat) (bias variation pull denom : ℚ) (ys : List Nat)
    (ns : List Nat) :
    (Environment.genRows w bias variation pull denom ys ⟨[], ns⟩).2 = ⟨[], ns⟩ := by
  induction ys with
  | nil => rfl
  | cons y ys ih =>
    simp [Environment.genRows, uniformList_empty, ih]

theorem genRows_empty_zero (w : Nat) (bias variation denom : ℚ) (ys : List Nat)
    (ns : List Nat) :
    Environment.genRows w bias variation 0 denom ys ⟨[], ns⟩ =
      (List.replicate ys.length (List.replicate w (bias + -variation)), ⟨[], ns⟩) := by
  induction ys with
  | nil => rfl
  | cons y ys ih =>
    simp [Environment.genRows, uniformList_empty, ih, List.map_replicate,
      List.replicate_succ]

theorem sum_map_lookup_const {α : Type} (L : List α) (f : α → ℚ) (c k : ℚ)
    (hf : ∀ p ∈ L, f p = c) :
    (L.map (fun p => f p * k)).sum = (L.length : ℚ) * (c * k) := by
  have hmap : L.map (fun p => f p * k) = L.map (fun _ => c * k) :=
    List.map_congr_left (fun p hp => by rw [hf p hp])
  rw [hmap, List.map_const']
  simp [List.sum_replicate, nsmul_eq_mul]

theorem const_smooth_arith (c : ℚ) (n : Nat) (hn : ¬ n = 0) :
    c * (1/2) + (n : ℚ) * (c * ((1/2) / (max 1 (n : ℚ)))) = c := by
  have h1 : (1 : ℚ) ≤ (n : ℚ) := by
    exact_mod_cast Nat.one_le_iff_ne_zero.2 hn
  rw [max_eq_right h1]
  have hne : (n : ℚ) ≠ 0 := by positivity
  field_simp
  ring

theorem smoothOnce_const (w h : Nat) (c : ℚ) :
    Environment.smoothOnce w h (List.replicate h (List.replicate w c)) =
      List.replicate h (List.replicate w c) := by
  apply List.eq_replicate.2
  refine ⟨by simp [Environment.smoothOnce], ?_⟩
  intro row hrow
  simp only [Environment.smoothOnce, List.mem_map, List.mem_range] at hrow
  obtain ⟨y, hy, rfl⟩ := hrow
  apply List.eq_replicate.2
  refine ⟨by simp, ?_⟩
  intro v hv
  simp only [List.mem_map, List.mem_range] at hv
  obtain ⟨x, hx, rfl⟩ := hv
  have hhere : ((List.replicate h (List.replicate w c)).getD y []).getD x 0 = c := by
    rw [getD_replicate_helper h _ _ y hy, getD_replicate_helper w _ _ x hx]
  split
  · exact hhere
  · rename_i hcnt
    rw [hhere, sum_map_lookup_const _ _ c _ (fun p hp => by
      have hinb := List.of_mem_filter hp
      rw [decide_eq_true_eq] at hinb
      obtain ⟨h1, h2, h3, h4⟩ := hinb
      rw [getD_replicate_helper h _ _ _ (by omega),
        getD_replicate_helper w _ _ _ (by omega)])]
    exact const_smooth_arith c _ hcnt

theorem smoothIter_const (w h : Nat) (c : ℚ) (k : Nat) :
    Environment.smoothIter w h k (List.replicate h (List.replicate w c)) =
      List.replicate h (List.replicate w c) := by
  induction k with
  | zero => rfl
  | succ n ih =>
    have hstep : Environment.smoothIter w h (n + 1)
        (List.replicate h (List.replicate w c)) =
        Environment.smoothIter w h n (Environment.smoothOnce w h
          (List.replicate h (List.replicate w c))) := rfl
    rw [hstep, smoothOnce_const]
    exact ih

theorem generateLayer_rng_empty (w h : Nat) (b v p : ℚ) (k : Nat) (ns : List Nat) :
    (Environment.generateLayer w h b v p k ⟨[], ns⟩).2 = ⟨[], ns⟩ := by
  simp [Environment.generateLayer, genRows_empty]

theorem generateLayer_empty_zero (w h : Nat) (b v : ℚ) (k : Nat) (ns : List Nat) :
    Environment.generateLayer w h b v 0 k ⟨[], ns⟩ =
      (List.replicate h (List.replicate w (max 0 (min 1 (b + -v)))), ⟨[], ns⟩) := by
  simp only [Environment.generateLayer]
  rw [genRows_empty_zero]
  simp only [List.length_range]
  rw [smoothIter_const]
  simp [List.map_replicate, genRows_empty_zero]

theorem biomeNoiseOf_empty (w h : Nat) (ns : List Nat) :
    Environment.biomeNoiseOf w h ⟨[], ns⟩ =
      List.replicate h (List.replicate w (3/20)) := by
  unfold Environment.biomeNoiseOf
  rw [generateLayer_rng_empty, generateLayer_rng_empty, generateLayer_empty_zero]
  norm_num [min_def, max_def]

theorem classifyTertiles_const (noise : List (List ℚ)) (c : ℚ)
    (hc : ∀ v ∈ noise.flatten, v = c) :
    Environment.classifyTertiles noise =
      noise.map (fun row => row.map (fun v => (2 : Nat))) := by
  by_cases hne : noise.flatten = []
  · have hrows : ∀ row ∈ noise, row = [] := List.flatten_eq_nil_iff.1 hne
    simp only [Environment.classifyTertiles]
    apply List.map_congr_left
    intro row hrow
    rw [hrows row hrow]
    rfl
  · have hlen : 0 < noise.flatten.length := List.length_pos.2 hne
    have hperm : (noise.flatten.mergeSort (fun a b => decide (a ≤ b))).Perm
        noise.flatten := List.mergeSort_perm noise.flatten _
    have hslen : (noise.flatten.mergeSort (fun a b => decide (a ≤ b))).length =
        noise.flatten.length := hperm.length_eq
    have ht1 : (noise.flatten.mergeSort (fun a b => decide (a ≤ b))).getD
        (noise.flatten.length / 3) 0 = c := by
      rw [List.getD_eq_getElem _ 0 (by omega)]
      exact hc _ (hperm.subset (List.getElem_mem _))
    have ht2 : (noise.flatten.mergeSort (fun a b => decide (a ≤ b))).getD
        (2 * (noise.flatten.length / 3)) 0 = c := by
      rw [List.getD_eq_getElem _ 0 (by omega)]
      exact hc _ (hperm.subset (List.getElem_mem _))
    simp only [Environment.classifyTertiles]
    apply List.map_congr_left
    intro row hrow
    apply List.map_congr_left
    intro v hv
    have hvc : v = c := hc v (List.mem_flatten.2 ⟨row, hrow, hv⟩)
    rw [ht1, ht2, hvc, if_neg (lt_irrefl c), if_neg (lt_irrefl c)]

theorem uniformList_length (a b : ℚ) (n : Nat) (r : RNG) :
    (Environment.uniformList a b n r).1.length = n := by
  induction n generalizing r with
  | zero => rfl
  | succ k ih => simp [Environment.uniformList, ih]

theorem genRows_shape (w : Nat) (bias variation pull denom : ℚ) (ys : List Nat)
    (r : RNG) :
    (Environment.genRows w bias variation pull denom ys r).1.length = ys.length ∧
      ∀ row ∈ (Environment.genRows w bias variation pull denom ys r).1,
        row.length = w := by
  induction ys generalizing r with
  | nil => exact ⟨rfl, by intro row hrow; cases hrow⟩
  | cons y ys ih =>
    refine ⟨by simp [Environment.genRows, (ih _).1], ?_⟩
    intro row hrow
    simp only [Environment.genRows, List.mem_cons] at hrow
    rcases hrow with hrow | hrow
    · rw [hrow]
      simp [uniformList_length]
    · exact (ih _).2 row hrow

theorem smoothOnce_shape (w h : Nat) (layer : List (List ℚ)) :
    (Environment.smoothOnce w h layer).length = h ∧
      ∀ row ∈ Environment.smoothOnce w h layer, row.length = w := by
  refine ⟨by simp [Environment.smoothOnce], ?_⟩
  intro row hrow
  simp only [Environment.smoothOnce, List.mem_map, List.mem_range] at hrow
  obtain ⟨y, hy, rfl⟩ := hrow
  simp

theorem smoothIter_shape (w h : Nat) (k : Nat) (layer : List (List ℚ))
    (hl : layer.length = h ∧ ∀ row ∈ layer, row.length = w) :
    (Environment.smoothIter w h k layer).length = h ∧
      ∀ row ∈ Environment.smoothIter w h k layer, row.length = w := by
  induction k generalizing layer with
  | zero => exact hl
  | succ n ih => exact ih _ (smoothOnce_shape w h layer)

theorem generateLayer_shape (w h : Nat) (b v p : ℚ) (k : Nat) (r : RNG) :
    (Environment.generateLayer w h b v p k r).1.length = h ∧
      ∀ row ∈ (Environment.generateLayer w h b v p k r).1, row.length = w := by
  simp only [Environment.generateLayer]
  have hg := genRows_shape w b v p ((max 1 (h - 1) : Nat) : ℚ) (List.range h) r
  have hs := smoothIter_shape w h k _ ⟨by rw [hg.1]; simp, hg.2⟩
  refine ⟨by simpa using hs.1, ?_⟩
  intro row hrow
  simp only [List.mem_map] at hrow
  obtain ⟨row0, hrow0, rfl⟩ := hrow
  simpa using hs.2 row0 hrow0

theorem biomeNoiseOf_flatten_length (w h : Nat) (r : RNG) :
    (Environment.biomeNoiseOf w h r).flatten.length = h * w := by
  have hsh := generateLayer_shape w h (1/2) (35/100) 0 3
    ((Environment.generateLayer w h (1/2) (24/100) (16/100) 4
      (Environment.generateLayer w h (55/100) (22/100) (-(2/10)) 4 r).2).2)
  unfold Environment.biomeNoiseOf
  rw [flatten_length_of_shape _ w hsh.2, hsh.1]

/-- C6 (corrected: requires pairwise-distinct noise values): when the biome
noise layer generated at construction has pairwise-distinct cell values, the
tertile classification partitions the `w * h` cells into classes 0, 1, 2 of
sizes `n / 3`, `n / 3`, `n - 2 * (n / 3)`, which pairwise differ by at most
`n % 3` (the remainder of the cell count after division into thirds). -/
theorem biome_partition_balanced (w h : Nat) (r : RNG)
    (hnd : (Environment.biomeNoiseOf w h r).flatten.Nodup) :
    biomeBalanced ((Environment.create w h r).1.biome) (w * h) := by
  have hb : (Environment.create w h r).1.biome =
      Environment.classifyTertiles (Environment.biomeNoiseOf w h r) := rfl
  have hlen : (Environment.biomeNoiseOf w h r).flatten.length = w * h := by
    rw [biomeNoiseOf_flatten_length, Nat.mul_comm]
  rw [hb, ← hlen]
  exact classifyTertiles_balanced _ hnd

theorem biome_partition_balanced_witness :
    (Environment.biomeNoiseOf 1 1 ⟨[], []⟩).flatten.Nodup ∧
      biomeBalanced ((Environment.create 1 1 ⟨[], []⟩).1.biome) (1 * 1) :=
  ⟨by rw [biomeNoiseOf_empty]; simp,
    biome_partition_balanced 1 1 ⟨[], []⟩ (by rw [biomeNoiseOf_empty]; simp)⟩

/-- C6 counterexample: with the rng whose draws are all equal (the exhausted
stream yields 0 on every `random()` call), every biome-noise cell of a 2×2
grid equals 3/20, the two tertile cutoffs coincide at 3/20, every cell is
classified as biome 2, and the class sizes (0, 0, 4) differ by 4, exceeding
the remainder 4 % 3 = 1.  The spec's "for every seed" balance claim fails. -/
theorem biome_balance_counterexample :
    ¬ biomeBalanced ((Environment.create 2 2 ⟨[], []⟩).1.biome) (2 * 2) := by
  have hb : (Environment.create 2 2 ⟨[], []⟩).1.biome =
      Environment.classifyTertiles (Environment.biomeNoiseOf 2 2 ⟨[], []⟩) := rfl
  rw [hb, biomeNoiseOf_empty,
    classifyTertiles_const _ (3/20) (by intro v hv; simpa using hv)]
  simp only [List.map_replicate]
  intro hbal
  have h5 := hbal.2.2.2.1
  have hcount : biomeCounts (List.replicate 2 (List.replicate 2 2)) = (0, 0, 4) := rfl
  rw [hcount] at h5
  exact absurd h5 (by decide)

theorem getD_set_self {α : Type} (l : List α) (i : Nat) (v d : α) (h : i < l.length) :
    (l.set i v).getD i d = v := by
  rw [List.getD_eq_getElem _ _ (by simpa using h)]
  exact List.getElem_set_self _

theorem getD_set_ne {α : Type} (l : List α) (i j : Nat) (v d : α) (h : i ≠ j) :
    (l.set i v).getD j d = l.getD j d := by
  rcases Nat.lt_or_ge j l.length with hj | hj
  · rw [List.getD_eq_getElem _ _ (by simpa using hj), List.getD_eq_getElem _ _ hj]
    exact List.getElem_set_ne h _
  · rw [List.getD_eq_default _ _ (by simpa using hj), List.getD_eq_default _ _ hj]

theorem lookupOrc_mem (p : Population) (id : Nat) (o : Orc)
    (h : lookupOrc p id = some o) : (id, o) ∈ p := by
  induction p with
  | nil => cases h
  | cons e rest ih =>
    rw [lookupOrc_cons] at h
    by_cases he : e.1 = id
    · rw [if_pos he] at h
      injection h with h'
      have : (id, o) = e := by
        obtain ⟨e1, e2⟩ := e
        simp only at he h'
        rw [he, h']
      rw [this]
      exact List.mem_cons_self _ _
    · rw [if_neg he] at h
      exact List.mem_cons_of_mem _ (ih h)

theorem lookupOrc_eq_none (p : Population) (id : Nat) :
    lookupOrc p id = none ↔ ∀ e ∈ p, e.1 ≠ id := by
  induction p with
  | nil => simp [lookupOrc]
  | cons e rest ih =>
    rw [lookupOrc_cons]
    by_cases he : e.1 = id <;> simp [he, ih]

theorem keys_updateOrc (p : Population) (id : Nat) (f : Orc → Orc) :
    (updateOrc p id f).map (fun e => e.1) = p.map (fun e => e.1) := by
  unfold updateOrc
  rw [List.map_map]
  apply List.map_congr_left
  intro e he
  by_cases h : e.1 = id <;> simp [h]

theorem mem_updateOrc (p : Population) (id : Nat) (f : Orc → Orc) (e' : Nat × Orc)
    (h : e' ∈ updateOrc p id f) :
    ∃ e ∈ p, e' = if e.1 = id then (e.1, f e.2) else e := by
  unfold updateOrc at h
  obtain ⟨e, he, heq⟩ := List.mem_map.1 h
  exact ⟨e, he, heq.symm⟩

theorem mem_eraseOrc (p : Population) (id : Nat) (e : Nat × Orc)
    (h : e ∈ eraseOrc p id) : e ∈ p ∧ e.1 ≠ id := by
  unfold eraseOrc at h
  have h2 := List.of_mem_filter h
  exact ⟨List.mem_of_mem_filter h, by simpa using h2⟩

theorem keys_eraseOrc_nodup (p : Population) (id : Nat)
    (h : (p.map (fun e => e.1)).Nodup) :
    ((eraseOrc p id).map (fun e => e.1)).Nodup := by
  unfold eraseOrc
  exact ((List.filter_sublist _).map _).nodup h

theorem setCell_width (e : Environment) (x y : Int) (v : Option Nat) :
    (e.setCell x y v).width = e.width := rfl

theorem setCell_height (e : Environment) (x y : Int) (v : Option Nat) :
    (e.setCell x y v).height = e.height := rfl

theorem setCell_inBounds (e : Environment) (x y a b : Int) (v : Option Nat) :
    (e.setCell x y v).inBounds a b ↔ e.inBounds a b := Iff.rfl

theorem get_some_inBounds (e : Environment) (x y : Int) (id : Nat)
    (h : e.get x y = some id) : e.inBounds x y := by
  unfold Environment.get at h
  by_cases hb : e.inBounds x y
  · exact hb
  · rw [if_neg hb] at h; cases h

theorem get_setCell_self (e : Environment) (x y : Int) (v : Option Nat)
    (hlen : e.grid.length = e.height) (hrow : ∀ row ∈ e.grid, row.length = e.width)
    (hb : e.inBounds x y) :
    (e.setCell x y v).get x y = v := by
  obtain ⟨hx0, hxw, hy0, hyh⟩ := hb
  have hylt : y.toNat < e.grid.length := by rw [hlen]; omega
  have hrowlen : (e.grid.getD y.toNat []).length = e.width := by
    rw [List.getD_eq_getElem _ _ hylt]
    exact hrow _ (List.getElem_mem _)
  have hxlt : x.toNat < (e.grid.getD y.toNat []).length := by rw [hrowlen]; omega
  unfold Environment.get Environment.setCell
  dsimp only
  split
  · rw [getD_set_self _ _ _ _ hylt, getD_set_self _ _ _ _ hxlt]
  · rename_i hfalse
    exact absurd (show e.inBounds x y from ⟨hx0, hxw, hy0, hyh⟩) hfalse

theorem get_setCell_ne (e : Environment) (x y a b : Int) (v : Option Nat)
    (hb : e.inBounds x y)
    (hne : ¬ (a = x ∧ b = y)) :
    (e.setCell x y v).get a b = e.get a b := by
  obtain ⟨hx0, hxw, hy0, hyh⟩ := hb
  unfold Environment.get Environment.setCell
  dsimp only
  split
  · rename_i hab0
    have hab : e.inBounds a b := hab0
    rw [if_pos hab]
    obtain ⟨ha0, haw, hb0, hbh⟩ := hab
    by_cases hby : b.toNat = y.toNat
    · have hbeq : b = y := by omega
      have haxn : a.toNat ≠ x.toNat := by
        have hax : ¬ a = x := fun hax => hne ⟨hax, hbeq⟩
        omega
      rcases Nat.lt_or_ge y.toNat e.grid.length with hyl | hyl
      · rw [hby, getD_set_self _ _ _ _ hyl, getD_set_ne _ _ _ _ _ haxn.symm]
      · rw [List.set_eq_of_length_le hyl]
    · rw [getD_set_ne _ _ _ _ _ (fun hc => hby hc.symm)]
  · rename_i hab0
    rw [if_neg (show ¬ e.inBounds a b from hab0)]

theorem setCell_shape (e : Environment) (x y : Int) (v : Option Nat)
    (hlen : e.grid.length = e.height) (hrow : ∀ row ∈ e.grid, row.length = e.width) :
    (e.setCell x y v).grid.length = e.height ∧
      ∀ row ∈ (e.setCell x y v).grid, row.length = e.width := by
  constructor
  · simp [Environment.setCell, hlen]
  · intro row hr
    simp only [Environment.setCell] at hr
    rcases Nat.lt_or_ge y.toNat e.grid.length with hyl | hyl
    · rcases List.mem_or_eq_of_mem_set hr with h | h
      · exact hrow _ h
      · rw [h, List.length_set, List.getD_eq_getElem _ _ hyl]
        exact hrow _ (List.getElem_mem _)
    · rw [List.set_eq_of_length_le hyl] at hr
      exact hrow _ hr

theorem emptyGrid_get (w h : Nat) (e : Environment)
    (he : e.grid = Environment.emptyGrid w h) (x y : Int) : e.get x y = none := by
  unfold Environment.get
  split
  · rw [he]
    unfold Environment.emptyGrid
    rcases Nat.lt_or_ge y.toNat h with hy | hy
    · rw [getD_replicate_helper h _ _ _ hy]
      rcases Nat.lt_or_ge x.toNat w with hx | hx
      · rw [getD_replicate_helper w _ _ _ hx]
      · rw [List.getD_eq_default _ _ (by simpa using hx)]
    · rw [List.getD_eq_default (List.replicate h (List.replicate w none)) _
        (by simpa using hy)]
      rfl
  · rfl

theorem choice_mem {α : Type} (r : RNG) (l : List α) (d : α) (hne : l ≠ []) :
    (r.choice l d).1 ∈ l := by
  unfold RNG.choice RNG.randBelow
  dsimp only
  have hlen : 0 < l.length := List.length_pos.2 hne
  have hmax : max 1 l.length = l.length := by omega
  have hidx : (r.nats.headD 0) % max 1 l.length < l.length := by
    rw [hmax]; exact Nat.mod_lt _ hlen
  rw [List.getD_eq_getElem _ _ hidx]
  exact List.getElem_mem _

theorem mem_emptyNeighbors (e : Environment) (x y : Int) (c : Coord)
    (h : c ∈ e.emptyNeighbors x y) : e.inBounds c.1 c.2 ∧ e.get c.1 c.2 = none := by
  unfold Environment.emptyNeighbors Environment.neighbors at h
  have h1 := List.mem_of_mem_filter h
  have h2 := List.of_mem_filter h
  have h3 := List.of_mem_filter h1
  rw [decide_eq_true_eq] at h3
  rw [Option.isNone_iff_eq_none] at h2
  exact ⟨h3, h2⟩

theorem swapIdx_subset {α : Type} (l : List α) (i j : Nat) (x : α)
    (h : x ∈ RNG.swapIdx l i j) : x ∈ l := by
  unfold RNG.swapIdx at h
  split at h
  · rename_i a b ha hb
    rw [List.get?_eq_getElem?] at ha hb
    obtain ⟨hi, hai⟩ := List.getElem?_eq_some_iff.1 ha
    obtain ⟨hj, hbj⟩ := List.getElem?_eq_some_iff.1 hb
    rcases List.mem_or_eq_of_mem_set h with h1 | h1
    · rcases List.mem_or_eq_of_mem_set h1 with h2 | h2
      · exact h2
      · rw [h2, ← hbj]
        exact List.getElem_mem _
    · rw [h1, ← hai]
      exact List.getElem_mem _
  · exact h

theorem swapIdx_nodup {α : Type} (l : List α) (i j : Nat)
    (h : l.Nodup) : (RNG.swapIdx l i j).Nodup := by
  unfold RNG.swapIdx
  split
  · rename_i a b ha hb
    rw [List.get?_eq_getElem?] at ha hb
    obtain ⟨hi, hai⟩ := List.getElem?_eq_some_iff.1 ha
    obtain ⟨hj, hbj⟩ := List.getElem?_eq_some_iff.1 hb
    have hval : ∀ k (hk : k < ((l.set i b).set j a).length),
        ((l.set i b).set j a)[k] =
          if k = j then a else if k = i then b else l.get ⟨k, by simpa using hk⟩ := by
      intro k hk
      by_cases hkj : k = j
      · subst hkj
        rw [if_pos rfl]
        exact List.getElem_set_self _
      · rw [if_neg hkj, List.getElem_set_ne (fun hc => hkj hc.symm)]
        by_cases hki : k = i
        · subst hki
          rw [if_pos rfl]
          exact List.getElem_set_self _
        · rw [if_neg hki]
          exact List.getElem_set_ne (fun hc => hki hc.symm) _
    have hinj : ∀ u v (hu : u < l.length) (hv : v < l.length),
        l[u] = l[v] → u = v := by
      intro u v hu hv he
      exact (List.Nodup.getElem_inj_iff h).1 he
    apply List.pairwise_iff_getElem.2
    intro p q hp hq hpq
    have hp' : p < l.length := by simpa using hp
    have hq' : q < l.length := by simpa using hq
    rw [hval p hp, hval q hq]
    by_cases hpj : p = j
    · rw [if_pos hpj]
      by_cases hqj : q = j
      · omega
      · rw [if_neg hqj]
        by_cases hqi : q = i
        · rw [if_pos hqi]
          intro hc
          have := hinj i j hi hj (hai.trans (hc.trans hbj.symm))
          omega
        · rw [if_neg hqi]
          intro hc
          have := hinj i q hi hq' (hai.trans hc)
          omega
    · rw [if_neg hpj]
      by_cases hpi : p = i
      · rw [if_pos hpi]
        by_cases hqj : q = j
        · rw [if_pos hqj]
          intro hc
          have := hinj j i hj hi (hbj.trans (hc.trans hai.symm))
          omega
        · rw [if_neg hqj]
          by_cases hqi : q = i
          · omega
          · rw [if_neg hqi]
            intro hc
            have := hinj j q hj hq' (hbj.trans hc)
            omega
      · rw [if_neg hpi]
        by_cases hqj : q = j
        · rw [if_pos hqj]
          intro hc
          have := hinj p i hp' hi (hc.trans hai.symm)
          omega
        · rw [if_neg hqj]
          by_cases hqi : q = i
          · rw [if_pos hqi]
            intro hc
            have := hinj p j hp' hj (hc.trans hbj.symm)
            omega
          · rw [if_neg hqi]
            intro hc
            have := hinj p q hp' hq' hc
            omega
  · exact h

theorem shuffleGo_nodup_subset {α : Type} (l : List α) (i : Nat) (r : RNG)
    (h : l.Nodup) :
    (RNG.shuffleGo l i r).1.Nodup ∧ ∀ x ∈ (RNG.shuffleGo l i r).1, x ∈ l := by
  induction i generalizing l r with
  | zero => exact ⟨h, fun x hx => hx⟩
  | succ k ih =>
    have hstep : RNG.shuffleGo l (k + 1) r =
        RNG.shuffleGo (RNG.swapIdx l (k + 1) (r.randBelow (k + 1 + 1)).1) k
          (r.randBelow (k + 1 + 1)).2 := rfl
    rw [hstep]
    obtain ⟨h1, h2⟩ := ih _ (r.randBelow (k + 1 + 1)).2 (swapIdx_nodup _ _ _ h)
    exact ⟨h1, fun x hx => swapIdx_subset _ _ _ _ (h2 x hx)⟩

theorem shuffle_nodup_subset {α : Type} (r : RNG) (l : List α) (h : l.Nodup) :
    (r.shuffle l).1.Nodup ∧ ∀ x ∈ (r.shuffle l).1, x ∈ l :=
  shuffleGo_nodup_subset l (l.length - 1) r h

theorem gridPopConsistent_of_WF (s : Sim) (h : s.WF) : GridPopConsistent s := by
  obtain ⟨h1, h2, h3, h4, h5, h6⟩ := h
  refine ⟨h5, ?_, h6⟩
  intro x1 y1 x2 y2 id hg1 hg2
  obtain ⟨o1, hl1, hp1⟩ := h5 _ _ _ hg1
  obtain ⟨o2, hl2, hp2⟩ := h5 _ _ _ hg2
  rw [hl1] at hl2
  injection hl2 with h'
  subst h'
  simpa using hp1.symm.trans hp2

theorem lookupOrc_id (s : Sim) (h : s.WF) (j : Nat) (o : Orc)
    (hl : lookupOrc s.population j = some o) : o.id = j :=
  (h.2.2.2.1 _ (lookupOrc_mem _ _ _ hl)).1

theorem WF_ite (c : Prop) [Decidable c] (a b : Sim) (ha : a.WF) (hb : b.WF) :
    (if c then a else b).WF := by
  split
  · exact ha
  · exact hb

theorem WF_bump (s : Sim) (r : RNG) (n : Nat) (h : s.WF) (hn : s.nextId ≤ n) :
    ({ s with rng := r, nextId := n } : Sim).WF := by
  obtain ⟨h1, h2, h3, h4, h5, h6⟩ := h
  exact ⟨h1, h2, h3, fun e he => ⟨(h4 e he).1, lt_of_lt_of_le (h4 e he).2 hn⟩, h5, h6⟩

theorem WF_updateOrcF (s : Sim) (id : Nat) (f : Orc → Orc)
    (hid : ∀ o, (f o).id = o.id) (hpos : ∀ o, (f o).position = o.position)
    (h : s.WF) : (s.updateOrcF id f).WF := by
  obtain ⟨h1, h2, h3, h4, h5, h6⟩ := h
  refine ⟨h1, h2, ?_, ?_, ?_, ?_⟩
  · rw [updateOrcF_population, keys_updateOrc]
    exact h3
  · intro e he
    rw [updateOrcF_population] at he
    obtain ⟨e0, he0, heq⟩ := mem_updateOrc _ _ _ _ he
    have h40 := h4 _ he0
    rw [updateOrcF_nextId]
    by_cases hc : e0.1 = id
    · rw [heq, if_pos hc]
      exact ⟨by rw [hid]; exact h40.1, h40.2⟩
    · rw [heq, if_neg hc]
      exact h40
  · intro x y i hg
    rw [updateOrcF_env] at hg
    obtain ⟨o, hlo, hpo⟩ := h5 _ _ _ hg
    rw [updateOrcF_population, lookupOrc_updateOrc]
    by_cases hc : i = id
    · rw [if_pos hc, hlo]
      exact ⟨f o, rfl, by rw [hpos]; exact hpo⟩
    · rw [if_neg hc]
      exact ⟨o, hlo, hpo⟩
  · intro e he
    rw [updateOrcF_population] at he
    obtain ⟨e0, he0, heq⟩ := mem_updateOrc _ _ _ _ he
    rw [updateOrcF_env]
    have h60 := h6 _ he0
    by_cases hc : e0.1 = id
    · rw [heq, if_pos hc]
      simpa [hpos] using h60
    · rw [heq, if_neg hc]
      exact h60

theorem WF_adjustEnergy (s : Sim) (id : Nat) (d : ℚ) (h : s.WF) :
    (s.adjustEnergy id d).WF :=
  WF_updateOrcF s id _ (fun o => rfl) (fun o => rfl) h


theorem WF_removeOrc (s : Sim) (orc : Orc)
    (h : s.WF) (hl : lookupOrc s.population orc.id = some orc) :
    (s.removeOrc orc).WF := by
  obtain ⟨h1, h2, h3, h4, h5, h6⟩ := h
  have hmem : (orc.id, orc) ∈ s.population := lookupOrc_mem _ _ _ hl
  have hcell : s.env.get orc.position.1 orc.position.2 = some orc.id := h6 _ hmem
  have hb : s.env.inBounds orc.position.1 orc.position.2 :=
    get_some_inBounds _ _ _ _ hcell
  have hsh := setCell_shape s.env orc.position.1 orc.position.2 none h1 h2
  simp only [Sim.removeOrc]
  rw [if_pos hcell]
  dsimp only [Sim.WF]
  refine ⟨hsh.1, hsh.2, ?_, ?_, ?_, ?_⟩
  · exact keys_eraseOrc_nodup _ _ h3
  · intro e he
    exact h4 _ (mem_eraseOrc _ _ _ he).1
  · intro x y i hg
    by_cases hxy : x = orc.position.1 ∧ y = orc.position.2
    · exfalso
      rw [hxy.1, hxy.2, get_setCell_self _ _ _ _ h1 h2 hb] at hg
      cases hg
    · rw [get_setCell_ne _ _ _ _ _ _ hb hxy] at hg
      obtain ⟨o, hlo, hpo⟩ := h5 _ _ _ hg
      refine ⟨o, ?_, hpo⟩
      rw [lookupOrc_eraseOrc]
      have hine : ¬ i = orc.id := by
        intro hie
        subst hie
        rw [hl] at hlo
        injection hlo with h'
        subst h'
        exact hxy ⟨(congrArg Prod.fst hpo).symm, (congrArg Prod.snd hpo).symm⟩
      rw [if_neg hine]
      exact hlo
  · intro e he
    obtain ⟨hep, hene⟩ := mem_eraseOrc _ _ _ he
    have h60 := h6 _ hep
    have hne : ¬ (e.2.position.1 = orc.position.1 ∧ e.2.position.2 = orc.position.2) := by
      intro hpos
      rw [hpos.1, hpos.2, hcell] at h60
      injection h60 with h'
      exact hene h'.symm
    rw [get_setCell_ne _ _ _ _ _ _ hb hne]
    exact h60

theorem WF_registerPlace (s : Sim) (orc : Orc) (x y : Int)
    (h : s.WF)
    (hb : s.env.inBounds x y) (hempty : s.env.get x y = none)
    (hidlt : orc.id < s.nextId)
    (hfresh : ∀ e ∈ s.population, e.1 ≠ orc.id) :
    (s.registerPlace orc x y).WF := by
  obtain ⟨h1, h2, h3, h4, h5, h6⟩ := h
  have hsh := setCell_shape s.env x y (some orc.id) h1 h2
  have hlnone : lookupOrc s.population orc.id = none :=
    (lookupOrc_eq_none _ _).2 hfresh
  simp only [Sim.registerPlace, Sim.placeOrc]
  split
  case isFalse hguard => exact absurd ⟨hb, hempty⟩ hguard
  dsimp only [Sim.WF]
  refine ⟨hsh.1, hsh.2, ?_, ?_, ?_, ?_⟩
  · rw [keys_updateOrc, List.map_append]
    apply List.Nodup.append h3 (by simp)
    intro a ha hmem2
    simp only [List.map_cons, List.map_nil, List.mem_singleton] at hmem2
    subst hmem2
    obtain ⟨e, he, hee⟩ := List.mem_map.1 ha
    exact hfresh e he hee
  · intro e he
    obtain ⟨e0, he0, heq⟩ := mem_updateOrc _ _ _ _ he
    rcases List.mem_append.1 he0 with h' | h'
    · have hne : ¬ e0.1 = orc.id := hfresh _ h'
      subst heq
      rw [if_neg hne]
      exact h4 _ h'
    · simp only [List.mem_singleton] at h'
      subst h'
      subst heq
      rw [if_pos rfl]
      exact ⟨rfl, hidlt⟩
  · intro a b i hg
    by_cases hab : a = x ∧ b = y
    · rw [hab.1, hab.2, get_setCell_self _ _ _ _ h1 h2 hb] at hg
      injection hg with h'
      subst h'
      refine ⟨{ orc with position := (x, y) }, ?_, ?_⟩
      · rw [lookupOrc_updateOrc, if_pos rfl, lookupOrc_append, hlnone]
        simp [lookupOrc_cons]
      · rw [hab.1, hab.2]
    · rw [get_setCell_ne _ _ _ _ _ _ hb hab] at hg
      obtain ⟨o, hlo, hpo⟩ := h5 _ _ _ hg
      have hine : ¬ i = orc.id := by
        intro hie
        subst hie
        rw [hlnone] at hlo
        cases hlo
      refine ⟨o, ?_, hpo⟩
      rw [lookupOrc_updateOrc, if_neg hine,
        lookupOrc_append_single_ne _ _ _ (fun hc => hine hc.symm)]
      exact hlo
  · intro e he
    obtain ⟨e0, he0, heq⟩ := mem_updateOrc _ _ _ _ he
    rcases List.mem_append.1 he0 with h' | h'
    · have hne : ¬ e0.1 = orc.id := hfresh _ h'
      subst heq
      rw [if_neg hne]
      have h60 := h6 _ h'
      have hnpos : ¬ (e0.2.position.1 = x ∧ e0.2.position.2 = y) := by
        intro hpos
        rw [hpos.1, hpos.2, hempty] at h60
        cases h60
      rw [get_setCell_ne _ _ _ _ _ _ hb hnpos]
      exact h60
    · simp only [List.mem_singleton] at h'
      subst h'
      subst heq
      rw [if_pos rfl]
      dsimp only
      exact get_setCell_self _ _ _ _ h1 h2 hb

theorem WF_moveOrc (s : Sim) (orc : Orc) (dest : Coord)
    (h : s.WF) (hl : lookupOrc s.population orc.id = some orc) :
    (s.moveOrc orc dest).WF := by
  obtain ⟨h1, h2, h3, h4, h5, h6⟩ := h
  unfold Sim.moveOrc
  by_cases hbd : s.env.inBounds dest.1 dest.2
  case neg =>
    rw [if_neg hbd]
    exact ⟨h1, h2, h3, h4, h5, h6⟩
  rw [if_pos hbd]
  by_cases hemp : s.env.get dest.1 dest.2 = none
  case neg =>
    rw [if_neg hemp]
    exact ⟨h1, h2, h3, h4, h5, h6⟩
  rw [if_pos hemp]
  have hmem : (orc.id, orc) ∈ s.population := lookupOrc_mem _ _ _ hl
  have hsrc : s.env.get orc.position.1 orc.position.2 = some orc.id := h6 _ hmem
  have hbsrc : s.env.inBounds orc.position.1 orc.position.2 :=
    get_some_inBounds _ _ _ _ hsrc
  have hs1 := setCell_shape s.env orc.position.1 orc.position.2 none h1 h2
  have hs2 := setCell_shape (s.env.setCell orc.position.1 orc.position.2 none)
    dest.1 dest.2 (some orc.id) hs1.1 hs1.2
  have hget1_src : (s.env.setCell orc.position.1 orc.position.2 none).get
      orc.position.1 orc.position.2 = none :=
    get_setCell_self _ _ _ _ h1 h2 hbsrc
  have hget2_dest : ((s.env.setCell orc.position.1 orc.position.2 none).setCell
      dest.1 dest.2 (some orc.id)).get dest.1 dest.2 = some orc.id :=
    get_setCell_self _ _ _ _ hs1.1 hs1.2 hbd
  have hget2_ne : ∀ a b : Int, ¬ (a = dest.1 ∧ b = dest.2) →
      ((s.env.setCell orc.position.1 orc.position.2 none).setCell
        dest.1 dest.2 (some orc.id)).get a b =
      (s.env.setCell orc.position.1 orc.position.2 none).get a b :=
    fun a b hne => get_setCell_ne _ _ _ _ _ _ hbd hne
  have hget1_ne : ∀ a b : Int, ¬ (a = orc.position.1 ∧ b = orc.position.2) →
      (s.env.setCell orc.position.1 orc.position.2 none).get a b = s.env.get a b :=
    fun a b hne => get_setCell_ne _ _ _ _ _ _ hbsrc hne
  dsimp only [Sim.WF]
  refine ⟨hs2.1, hs2.2, ?_, ?_, ?_, ?_⟩
  · rw [keys_updateOrc]
    exact h3
  · intro e he
    obtain ⟨e0, he0, heq⟩ := mem_updateOrc _ _ _ _ he
    subst heq
    have h40 := h4 _ he0
    by_cases hc : e0.1 = orc.id
    · rw [if_pos hc]
      exact h40
    · rw [if_neg hc]
      exact h40
  · intro a b i hg
    by_cases hab : a = dest.1 ∧ b = dest.2
    · rw [hab.1, hab.2, hget2_dest] at hg
      injection hg with h'
      subst h'
      refine ⟨{ orc with position := dest }, ?_, ?_⟩
      · rw [lookupOrc_updateOrc, if_pos rfl, hl]
        rfl
      · rw [hab.1, hab.2]
    · rw [hget2_ne a b hab] at hg
      by_cases hab2 : a = orc.position.1 ∧ b = orc.position.2
      · exfalso
        rw [hab2.1, hab2.2, hget1_src] at hg
        cases hg
      · rw [hget1_ne a b hab2] at hg
        obtain ⟨o, hlo, hpo⟩ := h5 _ _ _ hg
        have hine : ¬ i = orc.id := by
          intro hie
          subst hie
          rw [hl] at hlo
          injection hlo with h'
          subst h'
          exact hab2 ⟨(congrArg Prod.fst hpo).symm, (congrArg Prod.snd hpo).symm⟩
        rw [lookupOrc_updateOrc, if_neg hine]
        exact ⟨o, hlo, hpo⟩
  · intro e he
    obtain ⟨e0, he0, heq⟩ := mem_updateOrc _ _ _ _ he
    by_cases hc : e0.1 = orc.id
    · subst heq
      rw [if_pos hc]
      dsimp only
      rw [hc]
      exact hget2_dest
    · subst heq
      rw [if_neg hc]
      have h60 := h6 _ he0
      have hnd2 : ¬ (e0.2.position.1 = dest.1 ∧ e0.2.position.2 = dest.2) := by
        intro hp
        rw [hp.1, hp.2, hemp] at h60
        cases h60
      have hns : ¬ (e0.2.position.1 = orc.position.1 ∧ e0.2.position.2 = orc.position.2) := by
        intro hp
        rw [hp.1, hp.2, hsrc] at h60
        injection h60 with h'
        exact hc h'.symm
      rw [hget2_ne _ _ hnd2, hget1_ne _ _ hns]
      exact h60


theorem WF_rng (s : Sim) (r : RNG) (h : s.WF) : ({ s with rng := r } : Sim).WF := h

theorem WF_foldl_preserve {β : Type} (f : Sim → β → Sim) (l : List β) (s : Sim)
    (hf : ∀ st b, st.WF → (f st b).WF) (h : s.WF) : (l.foldl f s).WF := by
  induction l generalizing s with
  | nil => exact h
  | cons c cs ih => exact ih _ (hf _ _ h)

theorem lookup_self (s : Sim) (h : s.WF) (j : Nat) (o : Orc)
    (hl : lookupOrc s.population j = some o) :
    lookupOrc s.population o.id = some o := by
  rw [lookupOrc_id s h j o hl]
  exact hl

theorem WF_applyEnvironmentPressure (s : Sim) (id : Nat) (h : s.WF) :
    (s.applyEnvironmentPressure id).WF := by
  unfold Sim.applyEnvironmentPressure
  split
  · exact h
  · try dsimp only
    split
    · apply WF_adjustEnergy
      split
      · apply WF_adjustEnergy
        split
        · exact WF_adjustEnergy _ _ _ h
        · split
          · exact WF_adjustEnergy _ _ _ h
          · exact h
      · split
        · exact WF_adjustEnergy _ _ _ h
        · split
          · exact WF_adjustEnergy _ _ _ h
          · exact h
    · split
      · apply WF_adjustEnergy
        split
        · exact WF_adjustEnergy _ _ _ h
        · split
          · exact WF_adjustEnergy _ _ _ h
          · exact h
      · split
        · exact WF_adjustEnergy _ _ _ h
        · split
          · exact WF_adjustEnergy _ _ _ h
          · exact h

theorem WF_applySocialContext (s : Sim) (id : Nat) (h : s.WF) :
    (s.applySocialContext id).WF := by
  unfold Sim.applySocialContext
  split
  · exact h
  · try dsimp only
    split
    · apply WF_adjustEnergy
      split
      · exact WF_adjustEnergy _ _ _ h
      · exact h
    · split
      · exact WF_adjustEnergy _ _ _ h
      · exact h

theorem WF_forage (s : Sim) (id : Nat) (fert : ℚ) (h : s.WF) :
    (s.forage id fert).WF := by
  unfold Sim.forage
  exact WF_adjustEnergy _ _ _ (WF_rng _ _ h)

theorem WF_fightEngage (s : Sim) (i j : Nat) (h : s.WF) :
    (s.fightEngage i j).WF :=
  WF_adjustEnergy _ _ _ (WF_adjustEnergy _ _ _ h)

theorem WF_drainCheck (st : Sim) (j : Nat) (h : st.WF) :
    (match lookupOrc st.population j with
     | some o => if o.energy ≤ 0 then st.removeOrc o else st
     | none => st).WF := by
  split
  · rename_i o ho
    split
    · exact WF_removeOrc _ _ h (lookup_self _ h _ _ ho)
    · exact h
  · exact h

theorem WF_overpopKillCheck (s : Sim) (orc : Orc) (h : s.WF)
    (hl : lookupOrc s.population orc.id = some orc) :
    (s.overpopKillCheck orc).2.WF := by
  unfold Sim.overpopKillCheck
  try dsimp only
  split
  · exact h
  · split
    · exact h
    · try dsimp only
      split
      · exact WF_removeOrc _ _ (WF_rng _ _ h) hl
      · exact WF_rng _ _ h

theorem WF_applyDisease (s : Sim) (id : Nat) (h : s.WF) :
    (s.applyDisease id).WF := by
  unfold Sim.applyDisease
  split
  · exact h
  · try dsimp only
    split
    · split
      · exact h
      · try dsimp only
        split
        · refine WF_updateOrcF _ _ _ (fun o => rfl) (fun o => rfl) (WF_rng _ _ h)
        · exact WF_rng _ _ h
    · split
      · split
        · exact h
        · try dsimp only
          split
          · refine WF_updateOrcF _ _ _ (fun o => rfl) (fun o => rfl) (WF_rng _ _ h)
          · exact WF_rng _ _ h
      · split
        · apply WF_foldl_preserve
          · intro st c hst
            split
            · exact hst
            · split
              · exact hst
              · split
                · exact hst
                · try dsimp only
                  split
                  · refine WF_updateOrcF _ _ _ (fun o => rfl) (fun o => rfl) (WF_rng _ _ hst)
                  · exact WF_rng _ _ hst
          · apply WF_adjustEnergy
            refine WF_updateOrcF _ _ _ (fun o => rfl) (fun o => rfl) ?_
            split
            · exact h
            · try dsimp only
              split
              · refine WF_updateOrcF _ _ _ (fun o => rfl) (fun o => rfl) (WF_rng _ _ h)
              · exact WF_rng _ _ h
        · split
          · refine WF_updateOrcF _ _ _ (fun o => rfl) (fun o => rfl) ?_
            apply WF_foldl_preserve
            · intro st c hst
              split
              · exact hst
              · split
                · exact hst
                · split
                  · exact hst
                  · try dsimp only
                    split
                    · refine WF_updateOrcF _ _ _ (fun o => rfl) (fun o => rfl) (WF_rng _ _ hst)
                    · exact WF_rng _ _ hst
            · apply WF_adjustEnergy
              refine WF_updateOrcF _ _ _ (fun o => rfl) (fun o => rfl) ?_
              split
              · exact h
              · try dsimp only
                split
                · refine WF_updateOrcF _ _ _ (fun o => rfl) (fun o => rfl) (WF_rng _ _ h)
                · exact WF_rng _ _ h
          · apply WF_foldl_preserve
            · intro st c hst
              split
              · exact hst
              · split
                · exact hst
                · split
                  · exact hst
                  · try dsimp only
                    split
                    · refine WF_updateOrcF _ _ _ (fun o => rfl) (fun o => rfl) (WF_rng _ _ hst)
                    · exact WF_rng _ _ hst
            · apply WF_adjustEnergy
              refine WF_updateOrcF _ _ _ (fun o => rfl) (fun o => rfl) ?_
              split
              · exact h
              · try dsimp only
                split
                · refine WF_updateOrcF _ _ _ (fun o => rfl) (fun o => rfl) (WF_rng _ _ h)
                · exact WF_rng _ _ h


theorem WF_resolveFight (s : Sim) (ch df : Orc) (h : s.WF) :
    (s.resolveFight ch df).WF := by
  unfold Sim.resolveFight
  split
  · exact h
  · have h1 : (s.fightEngage ch.id df.id).WF := WF_fightEngage _ _ _ h
    try dsimp only
    split
    · rename_i ch1 df1 hch hdf
      split
      · exact WF_removeOrc _ _ h1 (lookup_self _ h1 _ _ hch)
      · split
        · exact WF_removeOrc _ _ h1 (lookup_self _ h1 _ _ hdf)
        · try dsimp only
          split
          · -- skirmish branch: two successive drain checks over the adjusted state
            split
            · rename_i df2 hdf2
              split
              · refine WF_removeOrc _ _ ?_ (lookup_self _ ?_ _ _ hdf2) <;>
                  (split
                   · rename_i ch2 hch2
                     split
                     · refine WF_removeOrc _ _ ?_ (lookup_self _ ?_ _ _ hch2) <;>
                         exact WF_adjustEnergy _ _ _ (WF_adjustEnergy _ _ _
                           (WF_adjustEnergy _ _ _ (WF_rng _ _ h1)))
                     · exact WF_adjustEnergy _ _ _ (WF_adjustEnergy _ _ _
                         (WF_adjustEnergy _ _ _ (WF_rng _ _ h1)))
                   · exact WF_adjustEnergy _ _ _ (WF_adjustEnergy _ _ _
                       (WF_adjustEnergy _ _ _ (WF_rng _ _ h1))))
              · split
                · rename_i ch2 hch2
                  split
                  · refine WF_removeOrc _ _ ?_ (lookup_self _ ?_ _ _ hch2) <;>
                      exact WF_adjustEnergy _ _ _ (WF_adjustEnergy _ _ _
                        (WF_adjustEnergy _ _ _ (WF_rng _ _ h1)))
                  · exact WF_adjustEnergy _ _ _ (WF_adjustEnergy _ _ _
                      (WF_adjustEnergy _ _ _ (WF_rng _ _ h1)))
                · exact WF_adjustEnergy _ _ _ (WF_adjustEnergy _ _ _
                    (WF_adjustEnergy _ _ _ (WF_rng _ _ h1)))
            · split
              · rename_i ch2 hch2
                split
                · refine WF_removeOrc _ _ ?_ (lookup_self _ ?_ _ _ hch2) <;>
                    exact WF_adjustEnergy _ _ _ (WF_adjustEnergy _ _ _
                      (WF_adjustEnergy _ _ _ (WF_rng _ _ h1)))
                · exact WF_adjustEnergy _ _ _ (WF_adjustEnergy _ _ _
                    (WF_adjustEnergy _ _ _ (WF_rng _ _ h1)))
              · exact WF_adjustEnergy _ _ _ (WF_adjustEnergy _ _ _
                  (WF_adjustEnergy _ _ _ (WF_rng _ _ h1)))
          · -- decisive branch: remove the loser, reward the winner, drain check
            split
            · rename_i w hw
              split
              · refine WF_removeOrc _ _ ?_ (lookup_self _ ?_ _ _ hw) <;>
                  (refine WF_updateOrcF _ _ _ (fun o => rfl) (fun o => rfl) ?_
                   apply WF_adjustEnergy
                   split
                   · exact WF_removeOrc _ _ (WF_rng _ _ h1) (lookup_self _ (WF_rng _ _ h1) _ _ hdf)
                   · exact WF_removeOrc _ _ (WF_rng _ _ h1) (lookup_self _ (WF_rng _ _ h1) _ _ hch))
              · refine WF_updateOrcF _ _ _ (fun o => rfl) (fun o => rfl) ?_
                apply WF_adjustEnergy
                split
                · exact WF_removeOrc _ _ (WF_rng _ _ h1) (lookup_self _ (WF_rng _ _ h1) _ _ hdf)
                · exact WF_removeOrc _ _ (WF_rng _ _ h1) (lookup_self _ (WF_rng _ _ h1) _ _ hch)
            · refine WF_updateOrcF _ _ _ (fun o => rfl) (fun o => rfl) ?_
              apply WF_adjustEnergy
              split
              · exact WF_removeOrc _ _ (WF_rng _ _ h1) (lookup_self _ (WF_rng _ _ h1) _ _ hdf)
              · exact WF_removeOrc _ _ (WF_rng _ _ h1) (lookup_self _ (WF_rng _ _ h1) _ _ hch)
    · exact h

theorem WF_reproduceSuccess (s1 : Sim) (orc : Orc) (empties : List Coord)
    (h : s1.WF) (hne : empties ≠ [])
    (hval : ∀ c ∈ empties, s1.env.inBounds c.1 c.2 ∧ s1.env.get c.1 c.2 = none) :
    (s1.reproduceSuccess orc empties).2.WF := by
  unfold Sim.reproduceSuccess
  try dsimp only
  apply WF_adjustEnergy
  apply WF_registerPlace
  · exact WF_bump _ _ _ h (Nat.le_succ _)
  · exact (hval _ (choice_mem _ _ _ hne)).1
  · exact (hval _ (choice_mem _ _ _ hne)).2
  · show s1.nextId < s1.nextId + 1
    exact Nat.lt_succ_self _
  · intro e he
    have := h.2.2.2.1 _ he
    show e.1 ≠ s1.nextId
    omega

theorem WF_maybeReproduce (s : Sim) (orc : Orc) (h : s.WF) :
    (s.maybeReproduce orc).2.WF := by
  unfold Sim.maybeReproduce
  split
  · exact h
  · try dsimp only
    split
    · exact WF_rng _ _ h
    · split
      · exact WF_rng _ _ h
      · split
        · exact WF_rng _ _ h
        · rename_i hne
          apply WF_reproduceSuccess
          · exact WF_rng _ _ h
          · exact hne
          · intro c hc
            exact mem_emptyNeighbors _ _ _ _ hc

theorem maybeReproduce_population_of_false (s : Sim) (orc : Orc) :
    (s.maybeReproduce orc).1 = false →
      (s.maybeReproduce orc).2.population = s.population := by
  unfold Sim.maybeReproduce
  split
  · intro _; rfl
  · try dsimp only
    split
    · intro _; rfl
    · split
      · intro _; rfl
      · split
        · intro _; rfl
        · intro hf
          exfalso
          simp [Sim.reproduceSuccess] at hf

theorem WF_takeActionMovePhase (s : Sim) (orc : Orc) (empties : List Coord) (fert : ℚ)
    (h : s.WF) (hl : lookupOrc s.population orc.id = some orc) :
    (s.takeActionMovePhase orc empties fert).WF := by
  unfold Sim.takeActionMovePhase
  split
  · try dsimp only
    split
    · exact WF_forage _ _ _ (WF_rng _ _ h)
    · exact WF_rng _ _ h
  · try dsimp only
    split
    · exact WF_adjustEnergy _ _ _ (WF_moveOrc _ _ _ (WF_rng _ _ h) hl)
    · split
      · try dsimp only
        split
        · apply WF_forage
          apply WF_rng
          exact WF_adjustEnergy _ _ _ (WF_moveOrc _ _ _ (WF_rng _ _ h) hl)
        · apply WF_rng
          exact WF_adjustEnergy _ _ _ (WF_moveOrc _ _ _ (WF_rng _ _ h) hl)
      · exact WF_adjustEnergy _ _ _ (WF_moveOrc _ _ _ (WF_rng _ _ h) hl)

theorem WF_takeActionTargetPhase (s : Sim) (orc : Orc) (occ emp : List Coord) (fert : ℚ)
    (h : s.WF) (hl : lookupOrc s.population orc.id = some orc) :
    (s.takeActionTargetPhase orc occ emp fert).WF := by
  unfold Sim.takeActionTargetPhase
  split
  · split
    · split
      · try dsimp only
        split
        · exact WF_resolveFight _ _ _ (WF_rng _ _ h)
        · exact WF_takeActionMovePhase _ _ _ _ (WF_rng _ _ h) hl
      · exact WF_takeActionMovePhase _ _ _ _ h hl
    · exact WF_takeActionMovePhase _ _ _ _ h hl
  · exact WF_takeActionMovePhase _ _ _ _ h hl

theorem WF_takeAction (s : Sim) (orc : Orc) (h : s.WF)
    (hl : lookupOrc s.population orc.id = some orc) :
    (s.takeAction orc).WF := by
  unfold Sim.takeAction
  try dsimp only
  split
  · split
    · exact WF_forage _ _ _ (WF_rng _ _ h)
    · exact WF_takeActionTargetPhase _ _ _ _ _ (WF_rng _ _ h) hl
  · exact WF_takeActionTargetPhase _ _ _ _ _ h hl

theorem WF_agingThenPressure (s : Sim) (id : Nat) (h : s.WF) :
    (s.agingThenPressure id).WF :=
  WF_applyEnvironmentPressure _ _
    (WF_updateOrcF _ _ _ (fun o => rfl) (fun o => rfl) h)

theorem WF_processTurn (s : Sim) (id : Nat) (h : s.WF) : (s.processTurn id).WF := by
  unfold Sim.processTurn
  split
  · exact h
  · try dsimp only
    have h4wf : (((s.agingThenPressure id).applySocialContext id).applyDisease id).WF :=
      WF_applyDisease _ _ (WF_applySocialContext _ _ (WF_agingThenPressure _ _ h))
    split
    · exact h4wf
    · rename_i o4 ho4
      have h5wf : ((((s.agingThenPressure id).applySocialContext id).applyDisease
          id).overpopKillCheck o4).2.WF :=
        WF_overpopKillCheck _ _ h4wf (lookup_self _ h4wf _ _ ho4)
      split
      · exact h5wf
      · split
        · exact h5wf
        · rename_i o5 ho5
          split
          · exact WF_removeOrc _ _ h5wf (lookup_self _ h5wf _ _ ho5)
          · split
            · exact WF_maybeReproduce _ _ h5wf
            · rename_i hmr
              apply WF_takeAction
              · exact WF_maybeReproduce _ _ h5wf
              · rw [maybeReproduce_population_of_false _ _ (by simpa using hmr)]
                exact lookup_self _ h5wf _ _ ho5

theorem WF_step (s : Sim) (h : s.WF) : s.step.WF := by
  unfold Sim.step
  try dsimp only
  exact WF_foldl_preserve _ _ _ (fun st b hst => WF_processTurn st b.id hst)
    (WF_rng _ _ h)


theorem WF_spawnOrc (s : Sim) (pos : Coord) (h : s.WF)
    (hb : s.env.inBounds pos.1 pos.2) (hemp : s.env.get pos.1 pos.2 = none) :
    (s.spawnOrc pos).WF := by
  unfold Sim.spawnOrc
  try dsimp only
  apply WF_registerPlace
  · exact WF_bump _ _ _ h (Nat.le_succ _)
  · exact hb
  · exact hemp
  · show s.nextId < s.nextId + 1
    exact Nat.lt_succ_self _
  · intro e he
    have := h.2.2.2.1 _ he
    show e.1 ≠ s.nextId
    omega

theorem spawnOrc_env (s : Sim) (pos : Coord)
    (hb : s.env.inBounds pos.1 pos.2) (hemp : s.env.get pos.1 pos.2 = none) :
    (s.spawnOrc pos).env = s.env.setCell pos.1 pos.2 (some s.nextId) := by
  unfold Sim.spawnOrc Sim.registerPlace Sim.placeOrc
  try dsimp only
  split
  · rfl
  · rename_i hg
    exact absurd ⟨hb, hemp⟩ hg

theorem WF_spawnFold (coords : List Coord) (s : Sim) (h : s.WF)
    (hnd : coords.Nodup)
    (hc : ∀ c ∈ coords, s.env.inBounds c.1 c.2 ∧ s.env.get c.1 c.2 = none) :
    (coords.foldl (fun st c => st.spawnOrc c) s).WF := by
  induction coords generalizing s with
  | nil => exact h
  | cons c cs ih =>
    rw [List.foldl_cons]
    rw [List.nodup_cons] at hnd
    have hcc := hc c (List.mem_cons_self _ _)
    apply ih
    · exact WF_spawnOrc _ _ h hcc.1 hcc.2
    · exact hnd.2
    · intro c' hc'
      have hcc' := hc c' (List.mem_cons_of_mem _ hc')
      have hne : ¬ (c'.1 = c.1 ∧ c'.2 = c.2) := by
        intro hp
        apply hnd.1
        have hcc : c' = c := Prod.ext hp.1 hp.2
        rw [← hcc]
        exact hc'
      rw [spawnOrc_env _ _ hcc.1 hcc.2]
      constructor
      · exact hcc'.1
      · rw [get_setCell_ne _ _ _ _ _ _ hcc.1 hne]
        exact hcc'.2

theorem WF_seedInitialPopulation (s : Sim) (h : s.WF)
    (hemp : ∀ x y, s.env.get x y = none)
    (hw : s.env.width = s.settings.grid_width)
    (hh : s.env.height = s.settings.grid_height) :
    s.seedInitialPopulation.WF := by
  unfold Sim.seedInitialPopulation
  try dsimp only
  have hndcoords : ((((List.range s.settings.grid_width).product
      (List.range s.settings.grid_height)).map
      (fun c => ((c.1 : Int), (c.2 : Int))))).Nodup := by
    apply List.Nodup.map
    · intro a b hab
      obtain ⟨a1, a2⟩ := a
      obtain ⟨b1, b2⟩ := b
      simp only [Prod.mk.injEq] at hab ⊢
      exact ⟨Nat.cast_injective hab.1, Nat.cast_injective hab.2⟩
    · exact List.Nodup.product (List.nodup_range _) (List.nodup_range _)
  have hsh := shuffle_nodup_subset s.rng _ hndcoords
  apply WF_spawnFold
  · exact h
  · exact (List.take_sublist _ _).nodup hsh.1
  · intro c hcm
    have hc2 := hsh.2 c (List.mem_of_mem_take hcm)
    obtain ⟨c0, hc0, hceq⟩ := List.mem_map.1 hc2
    obtain ⟨h01, h02⟩ := List.mem_product.1 hc0
    rw [List.mem_range] at h01 h02
    constructor
    · subst hceq
      dsimp only
      refine ⟨?_, ?_, ?_, ?_⟩
      · exact Int.natCast_nonneg _
      · rw [hw]
        exact_mod_cast h01
      · exact Int.natCast_nonneg _
      · rw [hh]
        exact_mod_cast h02
    · exact hemp _ _

theorem WF_mkSim (settings : Settings) (r : RNG) : (Sim.mkSim settings r).WF := by
  unfold Sim.mkSim
  try dsimp only
  apply WF_seedInitialPopulation
  · refine ⟨?_, ?_, by simp, by simp, ?_, by simp⟩
    · show (Environment.emptyGrid settings.grid_width settings.grid_height).length =
        settings.grid_height
      simp [Environment.emptyGrid]
    · intro row hrow
      have hrow' : row ∈ Environment.emptyGrid settings.grid_width settings.grid_height :=
        hrow
      simp only [Environment.emptyGrid, List.mem_replicate] at hrow'
      rw [hrow'.2]
      exact List.length_replicate _ _
    · intro x y i hg
      rw [emptyGrid_get settings.grid_width settings.grid_height _ rfl] at hg
      cases hg
  · intro x y
    exact emptyGrid_get settings.grid_width settings.grid_height _ rfl x y
  · rfl
  · rfl

theorem WF_reset (s : Sim) : s.reset.WF := by
  unfold Sim.reset
  try dsimp only
  apply WF_seedInitialPopulation
  · refine ⟨?_, ?_, by simp, by simp, ?_, by simp⟩
    · show (Environment.emptyGrid s.settings.grid_width s.settings.grid_height).length =
        s.settings.grid_height
      simp [Environment.emptyGrid]
    · intro row hrow
      have hrow' : row ∈ Environment.emptyGrid s.settings.grid_width
          s.settings.grid_height := hrow
      simp only [Environment.emptyGrid, List.mem_replicate] at hrow'
      rw [hrow'.2]
      exact List.length_replicate _ _
    · intro x y i hg
      rw [emptyGrid_get s.settings.grid_width s.settings.grid_height _ rfl] at hg
      cases hg
  · intro x y
    exact emptyGrid_get s.settings.grid_width s.settings.grid_height _ rfl x y
  · rfl
  · rfl

/-- C1: in every engine state reachable from construction by any sequence of
`step()` and `reset()` calls, the grid and the population mapping are
bidirectionally consistent: every occupied cell holds the id of a live agent
whose recorded position is exactly that cell, no two occupied cells hold the
same id, and every live agent's recorded position is a cell holding its id. -/
theorem grid_population_consistency (settings : Settings) (r0 : RNG) (s : Sim)
    (h : Reachable settings r0 s) : GridPopConsistent s := by
  have hwf : s.WF := by
    induction h with
    | init => exact WF_mkSim settings r0
    | step _ ih => exact WF_step _ ih
    | reset _ ih => exact WF_reset _
  exact gridPopConsistent_of_WF s hwf

theorem grid_population_consistency_witness :
    GridPopConsistent (Sim.mkSim c3Settings c3Rng) :=
  grid_population_consistency c3Settings c3Rng _ Reachable.init

end Theorems

end OrcLife
